import Mathlib

/-!
Verification of the Launch-CTRL event-orchestration core.

Shallow embedding of the server-side components that the verified claims
talk about:

* `LaunchCtrl.PolicyStore`  — server/policy/store.js
* `LaunchCtrl.Supervisor`   — server/supervisor/store.js (lifecycle, approvals,
  duplicate ledger, per-event orchestration `handleEvent`)
* `LaunchCtrl.Delta`        — server/bus/deltaEmitter.js
* `LaunchCtrl.AgentA`       — server/agents/correlationAgent.js (batch `correlate`)
* `LaunchCtrl.AgentB`       — server/agents/troubleshooting.js
* `LaunchCtrl.AgentC`       — server/agents/rca.js
* `LaunchCtrl.Bus`          — server/bus/incidentBus.js channel wiring

JavaScript idioms are modelled explicitly: `x || y` chains on strings are the
`jsOr*` helpers (empty string is falsy), optional fields are `Option`,
JS `Map`/`Set` are association lists / first-occurrence-deduplicated lists
(both preserve insertion order, as in V8), and wall-clock instants are `Nat`
milliseconds passed in as arguments.  Asynchronous snapshot reads performed by
Agent B are modelled by an oracle `Nat → Option Site` indexed by a running
read counter, so one run of the agent consumes reads in program order.
-/

namespace LaunchCtrl

/-- Truthiness of an optional JS string: present and non-empty. -/
def truthyS : Option String → Bool
  | some s => !s.isEmpty
  | none => false

/-- JS `a || d` for a string-valued expression with default `d`. -/
def jsOr (a : Option String) (d : String) : String :=
  if truthyS a then a.getD "" else d

/-- JS `a || b || d` for string-valued expressions. -/
def jsOr2 (a b : Option String) (d : String) : String :=
  if truthyS a then a.getD "" else jsOr b d

/-- JS `a || b` kept as an optional value (used for `ev.type || ev.alarm`). -/
def jsOrOpt (a b : Option String) : Option String :=
  if truthyS a then a else b

/-- One character of JS `toLowerCase`, restricted to ASCII (every string the
server lowercases is ASCII). -/
def lowerChar (c : Char) : Char :=
  if 65 ≤ c.toNat ∧ c.toNat ≤ 90 then Char.ofNat (c.toNat + 32) else c

/-- JS `String.prototype.toLowerCase` for the ASCII strings used here. -/
def lowerStr (s : String) : String := String.mk (s.data.map lowerChar)

/-- Whitespace test for `trimStr`. -/
def isWsChar (c : Char) : Bool := c = ' ' || c = '\t' || c = '\n' || c = '\r'

/-- JS `String.prototype.trim` (common whitespace). -/
def trimStr (s : String) : String :=
  String.mk (((s.data.dropWhile isWsChar).reverse.dropWhile isWsChar).reverse)

/-- Substring occurrence on character lists. -/
def containsSub (pat : List Char) : List Char → Bool
  | [] => pat.isPrefixOf []
  | c :: t => pat.isPrefixOf (c :: t) || containsSub pat t

/-- Case-insensitive substring test, the shallow form of a `/pat/i` regex
test against a fixed alphabetic pattern. -/
def containsCI (s pat : String) : Bool :=
  containsSub (lowerStr pat).data (lowerStr s).data

/-- JS `new Set(list)` materialised as the list of first occurrences,
in insertion order. -/
def toSetList (l : List String) : List String :=
  l.foldl (fun acc a => if a ∈ acc then acc else acc ++ [a]) []

/-- Lookup in an association list (JS object / `Map`), with default. -/
def lookupD {α : Type} (m : List (String × α)) (k : String) (d : α) : α :=
  match m.find? (fun p => p.1 = k) with
  | some p => p.2
  | none => d

end LaunchCtrl

namespace LaunchCtrl.PolicyStore

/-- Options for `alarmPrioritization` (server/policy/store.js). -/
def ALARM_OPTIONS : List String := ["Critical First", "Adaptive Correlation"]

/-- Options for `waysOfWorking`. -/
def WOW_OPTIONS : List String := ["E2E automation", "Human intervention at critical steps"]

/-- Options for `kpiAlignment`. -/
def KPI_OPTIONS : List String := [">95%", "75%"]

/-- `toCanonMap`: lowercased option → canonical option string. -/
def toCanonMap (arr : List String) : List (String × String) :=
  arr.map (fun v => (lowerStr v, v))

def ALARM_CANON : List (String × String) := toCanonMap ALARM_OPTIONS
def WOW_CANON : List (String × String) := toCanonMap WOW_OPTIONS
def KPI_CANON : List (String × String) := toCanonMap KPI_OPTIONS

/-- Map lookup used by `toCanonical`. -/
def lookupCanon (m : List (String × String)) (k : String) : Option String :=
  (m.find? (fun p => p.1 = k)).map (fun p => p.2)

/-- `toCanonical(value, map, label)`: canonicalise one patch value
case-insensitively; `none` models the thrown validation error. -/
def toCanonical (v : String) (m : List (String × String)) : Option String :=
  lookupCanon m (lowerStr v)

/-- Stored policy record. -/
structure Policy where
  alarmPrioritization : String
  waysOfWorking : String
  kpiAlignment : String
  updatedAt : String
  version : Nat
  source : String
deriving Repr, DecidableEq

/-- A partial patch: `undefined` fields are `none`. -/
structure Patch where
  alarmPrioritization : Option String := none
  waysOfWorking : Option String := none
  kpiAlignment : Option String := none
deriving Repr, DecidableEq

/-- One field of `validatePatch`: skip `undefined`, canonicalise otherwise,
or produce the thrown error message. -/
def canonField (v? : Option String) (m : List (String × String)) (label : String) :
    Except String (Option String) :=
  match v? with
  | none => .ok none
  | some v =>
    match toCanonical v m with
    | some c => .ok (some c)
    | none => .error (label ++ " must be one of: " ++ String.intercalate ", " (m.map (fun p => p.2)))

/-- `validatePatch`: validates the three enum fields in source order and
throws on the first invalid one. -/
def validatePatch (p : Patch) : Except String Patch := do
  let a ← canonField p.alarmPrioritization ALARM_CANON "alarmPrioritization"
  let w ← canonField p.waysOfWorking WOW_CANON "waysOfWorking"
  let k ← canonField p.kpiAlignment KPI_CANON "kpiAlignment"
  .ok { alarmPrioritization := a, waysOfWorking := w, kpiAlignment := k }

/-- `setPolicy(patch, source)`: on validation failure the thrown error is the
second component and the stored policy is untouched; on success the supplied
fields are overwritten with their canonical values and `version` bumps by 1. -/
def setPolicy (pol : Policy) (p : Patch) (source nowIso : String) :
    Policy × Option String :=
  match validatePatch p with
  | .error e => (pol, some e)
  | .ok v =>
    ({ alarmPrioritization := v.alarmPrioritization.getD pol.alarmPrioritization
       waysOfWorking := v.waysOfWorking.getD pol.waysOfWorking
       kpiAlignment := v.kpiAlignment.getD pol.kpiAlignment
       version := pol.version + 1
       updatedAt := nowIso
       source := source }, none)

/-- The claim's notion of a supplied value matching an enum option
case-insensitively. -/
def fieldMatches (v : String) (opts : List String) : Prop :=
  ∃ c ∈ opts, lowerStr c = lowerStr v

instance (v : String) (opts : List String) : Decidable (fieldMatches v opts) := by
  unfold fieldMatches; infer_instance

/-- Every field supplied in the patch matches its enum set case-insensitively. -/
def patchOk (p : Patch) : Prop :=
  (∀ v, p.alarmPrioritization = some v → fieldMatches v ALARM_OPTIONS) ∧
  (∀ v, p.waysOfWorking = some v → fieldMatches v WOW_OPTIONS) ∧
  (∀ v, p.kpiAlignment = some v → fieldMatches v KPI_OPTIONS)

theorem lookup_toCanonMap_some {opts : List String} {k c : String}
    (h : lookupCanon (toCanonMap opts) k = some c) : c ∈ opts ∧ lowerStr c = k := by
  induction opts with
  | nil => simp [lookupCanon, toCanonMap] at h
  | cons o rest ih =>
    simp only [toCanonMap, List.map_cons, lookupCanon, List.find?_cons] at h
    by_cases ho : lowerStr o = k
    · simp [ho] at h
      subst h
      exact ⟨List.mem_cons_self _ _, ho⟩
    · simp [ho] at h
      have := ih (h := by simpa [lookupCanon, toCanonMap] using h)
      exact ⟨List.mem_cons_of_mem _ this.1, this.2⟩

theorem lookup_toCanonMap_isSome {opts : List String} {k : String} :
    (lookupCanon (toCanonMap opts) k).isSome ↔ ∃ c ∈ opts, lowerStr c = k := by
  induction opts with
  | nil => simp [lookupCanon, toCanonMap]
  | cons o rest ih =>
    simp only [toCanonMap, List.map_cons, lookupCanon, List.find?_cons]
    by_cases ho : lowerStr o = k
    · simp only [ho, decide_True]
      constructor
      · intro _
        exact ⟨o, List.mem_cons_self _ _, ho⟩
      · intro _
        rfl
    · simp only [ho, decide_False]
      constructor
      · intro h
        have := ih.mp (by simpa [lookupCanon, toCanonMap] using h)
        obtain ⟨c, hc, hck⟩ := this
        exact ⟨c, List.mem_cons_of_mem _ hc, hck⟩
      · rintro ⟨c, hc, hck⟩
        rcases List.mem_cons.mp hc with rfl | hc
        · exact absurd hck ho
        · simpa [lookupCanon, toCanonMap] using ih.mpr ⟨c, hc, hck⟩

theorem toCanonical_isSome_iff {opts : List String} {v : String} :
    (toCanonical v (toCanonMap opts)).isSome ↔ fieldMatches v opts := by
  unfold toCanonical fieldMatches
  exact lookup_toCanonMap_isSome

theorem toCanonical_spec {opts : List String} {v c : String}
    (h : toCanonical v (toCanonMap opts) = some c) :
    c ∈ opts ∧ lowerStr c = lowerStr v :=
  lookup_toCanonMap_some h

theorem canonField_ok_of_matches {v? : Option String} {opts : List String} {l : String}
    (h : ∀ v, v? = some v → fieldMatches v opts) :
    ∃ a, canonField v? (toCanonMap opts) l = .ok a ∧
      (v? = none → a = none) ∧
      (∀ v, v? = some v → ∃ c, a = some c ∧ c ∈ opts ∧ lowerStr c = lowerStr v) := by
  cases v? with
  | none => exact ⟨none, rfl, fun _ => rfl, by simp⟩
  | some v =>
    have hm := h v rfl
    have hs : (toCanonical v (toCanonMap opts)).isSome := toCanonical_isSome_iff.mpr hm
    obtain ⟨c, hc⟩ := Option.isSome_iff_exists.mp hs
    refine ⟨some c, ?_, by simp, ?_⟩
    · simp [canonField, hc]
    · intro w hw
      obtain rfl : v = w := by injection hw
      obtain ⟨h1, h2⟩ := toCanonical_spec hc
      exact ⟨c, rfl, h1, h2⟩

theorem canonField_matches_of_ok {v? : Option String} {opts : List String} {l : String}
    {a : Option String} (h : canonField v? (toCanonMap opts) l = .ok a) :
    ∀ v, v? = some v → fieldMatches v opts := by
  intro v hv
  subst hv
  unfold canonField at h
  cases htc : toCanonical v (toCanonMap opts) with
  | none => simp [htc] at h
  | some c =>
    exact toCanonical_isSome_iff.mp (by simp [htc])

theorem setPolicy_ok_shape (pol : Policy) (p : Patch) (src iso : String)
    {a w k : Option String}
    (hA : canonField p.alarmPrioritization ALARM_CANON "alarmPrioritization" = .ok a)
    (hW : canonField p.waysOfWorking WOW_CANON "waysOfWorking" = .ok w)
    (hK : canonField p.kpiAlignment KPI_CANON "kpiAlignment" = .ok k) :
    setPolicy pol p src iso =
      ({ alarmPrioritization := a.getD pol.alarmPrioritization
         waysOfWorking := w.getD pol.waysOfWorking
         kpiAlignment := k.getD pol.kpiAlignment
         version := pol.version + 1
         updatedAt := iso
         source := src }, none) := by
  simp [setPolicy, validatePatch, hA, hW, hK, bind, Except.bind]

/-- C3: a patch through `setPolicy` whose supplied fields all match the fixed
enum sets case-insensitively is accepted: the stored fields become the
canonical option strings, unsupplied fields are untouched, and `version`
increases by exactly 1.  If any supplied field matches no option, `setPolicy`
raises an error and the stored policy, version included, is returned
unchanged. -/
theorem C3_setPolicy_validation (pol : Policy) (p : Patch) (src iso : String) :
    (patchOk p →
      (setPolicy pol p src iso).2 = none ∧
      (setPolicy pol p src iso).1.version = pol.version + 1 ∧
      (setPolicy pol p src iso).1.updatedAt = iso ∧
      (∀ v, p.alarmPrioritization = some v →
        (setPolicy pol p src iso).1.alarmPrioritization ∈ ALARM_OPTIONS ∧
        lowerStr ((setPolicy pol p src iso).1.alarmPrioritization) = lowerStr v) ∧
      (p.alarmPrioritization = none →
        (setPolicy pol p src iso).1.alarmPrioritization = pol.alarmPrioritization) ∧
      (∀ v, p.waysOfWorking = some v →
        (setPolicy pol p src iso).1.waysOfWorking ∈ WOW_OPTIONS ∧
        lowerStr ((setPolicy pol p src iso).1.waysOfWorking) = lowerStr v) ∧
      (p.waysOfWorking = none →
        (setPolicy pol p src iso).1.waysOfWorking = pol.waysOfWorking) ∧
      (∀ v, p.kpiAlignment = some v →
        (setPolicy pol p src iso).1.kpiAlignment ∈ KPI_OPTIONS ∧
        lowerStr ((setPolicy pol p src iso).1.kpiAlignment) = lowerStr v) ∧
      (p.kpiAlignment = none →
        (setPolicy pol p src iso).1.kpiAlignment = pol.kpiAlignment)) ∧
    (¬ patchOk p →
      (setPolicy pol p src iso).1 = pol ∧ ((setPolicy pol p src iso).2).isSome) := by
  constructor
  · rintro ⟨hA, hW, hK⟩
    obtain ⟨a, hca, haN, haS⟩ := canonField_ok_of_matches (l := "alarmPrioritization") hA
    obtain ⟨w, hcw, hwN, hwS⟩ := canonField_ok_of_matches (l := "waysOfWorking") hW
    obtain ⟨k, hck, hkN, hkS⟩ := canonField_ok_of_matches (l := "kpiAlignment") hK
    have hshape := setPolicy_ok_shape pol p src iso
      (by simpa [ALARM_CANON] using hca) (by simpa [WOW_CANON] using hcw)
      (by simpa [KPI_CANON] using hck)
    rw [hshape]
    refine ⟨rfl, rfl, rfl, ?_, ?_, ?_, ?_, ?_, ?_⟩
    · intro v hv
      obtain ⟨c, rfl, hc1, hc2⟩ := haS v hv
      exact ⟨hc1, hc2⟩
    · intro hv
      rw [haN hv]
      rfl
    · intro v hv
      obtain ⟨c, rfl, hc1, hc2⟩ := hwS v hv
      exact ⟨hc1, hc2⟩
    · intro hv
      rw [hwN hv]
      rfl
    · intro v hv
      obtain ⟨c, rfl, hc1, hc2⟩ := hkS v hv
      exact ⟨hc1, hc2⟩
    · intro hv
      rw [hkN hv]
      rfl
  · intro hbad
    cases hca : canonField p.alarmPrioritization ALARM_CANON "alarmPrioritization" with
    | error e => simp [setPolicy, validatePatch, hca, bind, Except.bind]
    | ok a =>
      cases hcw : canonField p.waysOfWorking WOW_CANON "waysOfWorking" with
      | error e => simp [setPolicy, validatePatch, hca, hcw, bind, Except.bind]
      | ok w =>
        cases hck : canonField p.kpiAlignment KPI_CANON "kpiAlignment" with
        | error e => simp [setPolicy, validatePatch, hca, hcw, hck, bind, Except.bind]
        | ok k =>
          exfalso
          exact hbad ⟨canonField_matches_of_ok (by simpa [ALARM_CANON] using hca),
            canonField_matches_of_ok (by simpa [WOW_CANON] using hcw),
            canonField_matches_of_ok (by simpa [KPI_CANON] using hck)⟩

/-- Witness for C3 at a concrete policy and patch: a lowercase
`"critical first"` patch is canonicalised and bumps the version; a patch with
an unknown option is rejected leaving the policy unchanged. -/
theorem C3_setPolicy_validation_witness :
    (setPolicy ⟨"Critical First", "Human intervention at critical steps", ">95%", "t0", 1, "default"⟩
        { alarmPrioritization := some "critical first" } "api" "t1").2 = none ∧
    (setPolicy ⟨"Critical First", "Human intervention at critical steps", ">95%", "t0", 1, "default"⟩
        { alarmPrioritization := some "critical first" } "api" "t1").1.version = 1 + 1 ∧
    (setPolicy ⟨"Critical First", "Human intervention at critical steps", ">95%", "t0", 1, "default"⟩
        { alarmPrioritization := some "bogus mode" } "api" "t1").1 =
      ⟨"Critical First", "Human intervention at critical steps", ">95%", "t0", 1, "default"⟩ := by
  have hok : patchOk { alarmPrioritization := some "critical first" } := by
    refine ⟨fun v hv => ?_, fun v hv => ?_, fun v hv => ?_⟩
    · obtain rfl : "critical first" = v := by injection hv
      decide
    · simp at hv
    · simp at hv
  have hbad : ¬ patchOk { alarmPrioritization := some "bogus mode" } := by
    intro hpk
    exact absurd (hpk.1 "bogus mode" rfl) (by decide)
  refine ⟨?_, ?_, ?_⟩
  · exact (C3_setPolicy_validation _ _ "api" "t1").1 hok |>.1
  · exact (C3_setPolicy_validation _ _ "api" "t1").1 hok |>.2.1
  · exact ((C3_setPolicy_validation _ _ "api" "t1").2 hbad).1

end LaunchCtrl.PolicyStore

namespace LaunchCtrl.Supervisor

/-- One step of an Agent B mitigation plan
(`{ action, args: { siteId, antenna? }, reason }`). -/
structure Step where
  action : String
  siteId : String
  antenna : Option String
  reason : String
deriving Repr, DecidableEq

/-- A pending approval (`supervisor.approvals` item). -/
structure Approval where
  id : String
  siteId : String
  actions : List Step
  reason : String
  createdAt : String
deriving Repr, DecidableEq

/-- The `supervisor` record of server/supervisor/store.js, together with the
module-level duplicate ledger `processed` (event id → wall time last seen).
Log lines are kept without their ISO-timestamp prefix, which depends only on
the wall clock. -/
structure SupState where
  status : String
  startedAt : Option Nat
  runtimeSec : Nat
  tasksRouted : Nat
  lastNote : Option String
  logs : List String
  approvals : List Approval
  nextApprovalId : Nat
  processed : List (String × Nat)
deriving Repr, DecidableEq

/-- The initial supervisor record. -/
def supInit : SupState :=
  { status := "idle", startedAt := none, runtimeSec := 0, tasksRouted := 0,
    lastNote := none, logs := [], approvals := [], nextApprovalId := 1,
    processed := [] }

/-- `_log`: push a line, keep the ring at ≤ 2000 entries. -/
def pushLog (logs : List String) (line : String) : List String :=
  let l := logs ++ [line]
  if l.length > 2000 then l.drop 1 else l

/-- `_log` applied to the supervisor state. -/
def logS (s : SupState) (line : String) : SupState :=
  { s with logs := pushLog s.logs line }

/-- Runtime accumulated by `stop`/`pause`:
`Math.max(0, Math.floor((now - (startedAt ?? now)) / 1000))`. -/
def runtimeDelta (now : Nat) (startedAt : Option Nat) : Nat :=
  (now - startedAt.getD now) / 1000

/-- `stop()`: accumulate runtime when running or paused, then unconditionally
clear `startedAt` and set status to `"stopped"`.  (Stopping the three agents
and the SSE broadcast have no effect on this state and are not modelled.) -/
def stopFn (now : Nat) (s : SupState) : SupState × String :=
  let s :=
    if s.status = "running" ∨ s.status = "paused" then
      { s with runtimeSec := s.runtimeSec + runtimeDelta now s.startedAt }
    else s
  let s := { s with startedAt := none, status := "stopped" }
  (logS s "stopped", "OK: stopped")

/-- `pause()`: refuse unless running; otherwise accumulate runtime, clear
`startedAt`, set status `"paused"`. -/
def pauseFn (now : Nat) (s : SupState) : SupState × String :=
  if s.status ≠ "running" then (s, "Not running")
  else
    let s := { s with runtimeSec := s.runtimeSec + runtimeDelta now s.startedAt,
                      startedAt := none, status := "paused" }
    (logS s "paused", "OK: paused")

/-- `resume()`: refuse unless paused; otherwise restart the clock. -/
def resumeFn (now : Nat) (s : SupState) : SupState × String :=
  if s.status ≠ "paused" then (s, "Not paused")
  else
    let s := { s with startedAt := some now, status := "running" }
    (logS s "resumed", "OK: resumed")

/-- `start()` (cold-start sweep and agent startup are separate effects and do
not touch these fields). -/
def startFn (now : Nat) (s : SupState) : SupState × String :=
  if s.status = "running" then (s, "Already running")
  else if s.status = "paused" then ((resumeFn now s).1, "Resumed")
  else
    let s := { s with status := "running", startedAt := some now }
    (logS s "started", "OK: started")

end LaunchCtrl.Supervisor

/-- C4 counterexample: from the initial `idle` state, `stop()` is not a no-op —
it moves the supervisor to `"stopped"` (and returns `"OK: stopped"`, not a
refusal), so the claim that `stop()` leaves the state unchanged for every
status outside running/paused is false at status `"idle"`. -/
theorem C4_stop_idle_counterexample :
    LaunchCtrl.Supervisor.supInit.status = "idle" ∧
    (LaunchCtrl.Supervisor.stopFn 0 LaunchCtrl.Supervisor.supInit).1.status = "stopped" ∧
    (LaunchCtrl.Supervisor.stopFn 0 LaunchCtrl.Supervisor.supInit).1.status ≠
      LaunchCtrl.Supervisor.supInit.status ∧
    (LaunchCtrl.Supervisor.stopFn 0 LaunchCtrl.Supervisor.supInit).2 = "OK: stopped" := by
  refine ⟨rfl, rfl, ?_, rfl⟩
  decide

/-- C4 (amended): `pause()` when not running returns `"Not running"` with the
state fully unchanged, and `resume()` when not paused returns `"Not paused"`
with the state unchanged, and `start()` when running returns
`"Already running"` with the state unchanged; but `stop()` from a status
outside running/paused is not a no-op: it preserves `runtimeSec`,
`tasksRouted` and the approvals, yet unconditionally sets status to
`"stopped"` and `startedAt` to `none` (a true no-op only when the state was
already stopped with no start time). -/
theorem C4_lifecycle_fsm (s : LaunchCtrl.Supervisor.SupState) (now : Nat) :
    (s.status ≠ "running" → s.status ≠ "paused" →
      (LaunchCtrl.Supervisor.stopFn now s).1.runtimeSec = s.runtimeSec ∧
      (LaunchCtrl.Supervisor.stopFn now s).1.tasksRouted = s.tasksRouted ∧
      (LaunchCtrl.Supervisor.stopFn now s).1.approvals = s.approvals ∧
      (LaunchCtrl.Supervisor.stopFn now s).1.status = "stopped" ∧
      (LaunchCtrl.Supervisor.stopFn now s).1.startedAt = none ∧
      (LaunchCtrl.Supervisor.stopFn now s).2 = "OK: stopped") ∧
    (s.status ≠ "running" → LaunchCtrl.Supervisor.pauseFn now s = (s, "Not running")) ∧
    (s.status ≠ "paused" → LaunchCtrl.Supervisor.resumeFn now s = (s, "Not paused")) ∧
    (s.status = "running" → LaunchCtrl.Supervisor.startFn now s = (s, "Already running")) := by
  refine ⟨?_, ?_, ?_, ?_⟩
  · intro h1 h2
    simp [LaunchCtrl.Supervisor.stopFn, LaunchCtrl.Supervisor.logS, h1, h2]
  · intro h1
    simp [LaunchCtrl.Supervisor.pauseFn, h1]
  · intro h1
    simp [LaunchCtrl.Supervisor.resumeFn, h1]
  · intro h1
    simp [LaunchCtrl.Supervisor.startFn, h1]

/-- Witness for C4 (amended) at the initial state. -/
theorem C4_lifecycle_fsm_witness :
    (LaunchCtrl.Supervisor.stopFn 5 LaunchCtrl.Supervisor.supInit).1.runtimeSec =
      LaunchCtrl.Supervisor.supInit.runtimeSec ∧
    LaunchCtrl.Supervisor.pauseFn 5 LaunchCtrl.Supervisor.supInit =
      (LaunchCtrl.Supervisor.supInit, "Not running") ∧
    LaunchCtrl.Supervisor.resumeFn 5 LaunchCtrl.Supervisor.supInit =
      (LaunchCtrl.Supervisor.supInit, "Not paused") := by
  have h := C4_lifecycle_fsm LaunchCtrl.Supervisor.supInit 5
  exact ⟨(h.1 (by decide) (by decide)).1, h.2.1 (by decide), h.2.2.1 (by decide)⟩

namespace LaunchCtrl.Delta

/-- The per-site slice of a full snapshot that the delta emitter reads. -/
structure SnapSite where
  alarms : List String
  antenna1 : Option String
  antenna2 : Option String
deriving Repr, DecidableEq

/-- `state.sites` as an ordered object (JS object keys keep insertion order
for the non-numeric site ids used here). -/
abbrev Snapshot := List (String × SnapSite)

/-- Normalized events emitted by `DeltaEmitter.ingest` (the payloads of the
typed channel and of the unified `event` envelope). -/
inductive BusEvent where
  | raised (siteId alarm ts : String) (bootstrap : Bool)
  | cleared (siteId alarm ts : String)
  | svcChanged (siteId antenna : String) (fromSvc toSvc : Option String) (ts : String)
deriving Repr, DecidableEq

/-- The `ts` field every emitted payload carries. -/
def eventTs : BusEvent → String
  | .raised _ _ ts _ => ts
  | .cleared _ _ ts => ts
  | .svcChanged _ _ _ _ ts => ts

/-- The `siteId` field of an emitted payload. -/
def eventSite : BusEvent → String
  | .raised siteId _ _ _ => siteId
  | .cleared siteId _ _ => siteId
  | .svcChanged siteId _ _ _ _ => siteId

/-- `lastAlarmsBySite`: site → set of alarms (insertion-ordered). -/
abbrev AlarmView := List (String × List String)

/-- `lastServiceBySite`: site → (antenna1.service, antenna2.service). -/
abbrev SvcView := List (String × (Option String × Option String))

/-- `extractAlarmsBySite`. -/
def extractAlarmsBySite (s : Snapshot) : AlarmView :=
  s.map (fun p => (p.1, toSetList p.2.alarms))

/-- `extractServiceBySite`. -/
def extractServiceBySite (s : Snapshot) : SvcView :=
  s.map (fun p => (p.1, (p.2.antenna1, p.2.antenna2)))

/-- The union `new Set([...prevKeys, ...curKeys])`, in JS `Set` order. -/
def unionKeys (prev cur : List String) : List String := toSetList (prev ++ cur)

/-- The events one site contributes in the alarm-delta loop: raised
(in `next` but not `prev`), then cleared (in `prev` but not `next`). -/
def siteAlarmDelta (prevA curA : AlarmView) (ts siteId : String) : List BusEvent :=
  let prevSet := lookupD prevA siteId []
  let nextSet := lookupD curA siteId []
  (nextSet.filter (fun a => !(prevSet.contains a))).map
      (fun a => BusEvent.raised siteId a ts false) ++
    (prevSet.filter (fun a => !(nextSet.contains a))).map
      (fun a => BusEvent.cleared siteId a ts)

/-- The events one site contributes in the service loop: `antenna1` first,
then `antenna2`, when the value changed. -/
def siteSvcDelta (prevS curS : SvcView) (ts siteId : String) : List BusEvent :=
  let prev := lookupD prevS siteId (none, none)
  let next := lookupD curS siteId (none, none)
  (if prev.1 ≠ next.1 then [BusEvent.svcChanged siteId "antenna1" prev.1 next.1 ts] else []) ++
    (if prev.2 ≠ next.2 then [BusEvent.svcChanged siteId "antenna2" prev.2 next.2 ts] else [])

/-- The alarm-delta loop over the union of site keys, accumulating pushes. -/
def alarmEvents (prevA curA : AlarmView) (ts : String) : List BusEvent :=
  (unionKeys (prevA.map Prod.fst) (curA.map Prod.fst)).foldl
    (fun acc siteId => acc ++ siteAlarmDelta prevA curA ts siteId) []

/-- The service-change loop over the union of site keys. -/
def svcEvents (prevS curS : SvcView) (ts : String) : List BusEvent :=
  (unionKeys (prevS.map Prod.fst) (curS.map Prod.fst)).foldl
    (fun acc siteId => acc ++ siteSvcDelta prevS curS ts siteId) []

/-- First-snapshot bootstrap: one `alarm.raised` with `bootstrap = true` per
currently present alarm, in site order then alarm order. -/
def bootstrapEvents (curA : AlarmView) (ts : String) : List BusEvent :=
  curA.foldl (fun acc p => acc ++ p.2.map (fun a => BusEvent.raised p.1 a ts true)) []

/-- `DeltaEmitter.ingest(newState)`: returns the replaced views and the
emissions of this call, in emission order.  `ts` is the single
`new Date().toISOString()` taken at the top of the call. -/
def ingest (last : Option (AlarmView × SvcView)) (bootstrapEmit : Bool)
    (snap : Snapshot) (ts : String) : (AlarmView × SvcView) × List BusEvent :=
  let curA := extractAlarmsBySite snap
  let curS := extractServiceBySite snap
  match last with
  | none => ((curA, curS), if bootstrapEmit then bootstrapEvents curA ts else [])
  | some (prevA, prevS) =>
    ((curA, curS), alarmEvents prevA curA ts ++ svcEvents prevS curS ts)

/-- Modelled from the amended claim's wording: the emission order stated as a
flat map — for each site of the alarm-key union (previous snapshot's key
order, then newly appearing sites), that site's raised then cleared events;
afterwards, for each site of the service-key union, its antenna1 then
antenna2 changes. -/
def ingestOrderSpec (prevA : AlarmView) (prevS : SvcView) (snap : Snapshot)
    (ts : String) : List BusEvent :=
  let curA := extractAlarmsBySite snap
  let curS := extractServiceBySite snap
  (unionKeys (prevA.map Prod.fst) (curA.map Prod.fst)).flatMap
      (siteAlarmDelta prevA curA ts) ++
    (unionKeys (prevS.map Prod.fst) (curS.map Prod.fst)).flatMap
      (siteSvcDelta prevS curS ts)

theorem foldl_append_eq_flatMap {α β : Type} (f : α → List β) (l : List α)
    (init : List β) :
    l.foldl (fun acc x => acc ++ f x) init = init ++ l.flatMap f := by
  induction l generalizing init with
  | nil => simp
  | cons x t ih => simp [ih, List.append_assoc]

theorem eventTs_siteAlarmDelta {prevA curA : AlarmView} {ts siteId : String}
    {e : BusEvent} (h : e ∈ siteAlarmDelta prevA curA ts siteId) :
    eventTs e = ts := by
  simp only [siteAlarmDelta, List.mem_append, List.mem_map, List.mem_filter] at h
  rcases h with ⟨a, _, rfl⟩ | ⟨a, _, rfl⟩ <;> rfl

theorem eventTs_siteSvcDelta {prevS curS : SvcView} {ts siteId : String}
    {e : BusEvent} (h : e ∈ siteSvcDelta prevS curS ts siteId) :
    eventTs e = ts := by
  simp only [siteSvcDelta, List.mem_append] at h
  rcases h with h | h <;> (split at h <;> simp at h) <;> (subst h; rfl)

theorem eventTs_bootstrapEvents {curA : AlarmView} {ts : String} {e : BusEvent}
    (h : e ∈ bootstrapEvents curA ts) : eventTs e = ts := by
  unfold bootstrapEvents at h
  rw [foldl_append_eq_flatMap] at h
  simp only [List.nil_append, List.mem_flatMap, List.mem_map] at h
  obtain ⟨p, _, a, _, rfl⟩ := h
  rfl

end LaunchCtrl.Delta

/-- C5 counterexample: with the previous snapshot listing site `"B"` (one
alarm `"x"`) before site `"A"`, and the next snapshot clearing `"x"` on `"B"`
while raising `"y"` on `"A"`, one `ingest` call emits
`alarm.cleared(B)` **before** `alarm.raised(A)` — the order the claim
requires (all raised first, sites ascending) would be
`alarm.raised(A), alarm.cleared(B)`, so the claimed ordering is false. -/
theorem C5_ingest_order_counterexample :
    (LaunchCtrl.Delta.ingest
        (some (LaunchCtrl.Delta.ingest none true
          [("B", ⟨["x"], some "Available", some "Available"⟩),
           ("A", ⟨[], some "Available", some "Available"⟩)] "T0").1)
        true
        [("A", ⟨["y"], some "Available", some "Available"⟩),
         ("B", ⟨[], some "Available", some "Available"⟩)] "T1").2 =
      [LaunchCtrl.Delta.BusEvent.cleared "B" "x" "T1",
       LaunchCtrl.Delta.BusEvent.raised "A" "y" "T1" false] ∧
    (LaunchCtrl.Delta.ingest
        (some (LaunchCtrl.Delta.ingest none true
          [("B", ⟨["x"], some "Available", some "Available"⟩),
           ("A", ⟨[], some "Available", some "Available"⟩)] "T0").1)
        true
        [("A", ⟨["y"], some "Available", some "Available"⟩),
         ("B", ⟨[], some "Available", some "Available"⟩)] "T1").2 ≠
      [LaunchCtrl.Delta.BusEvent.raised "A" "y" "T1" false,
       LaunchCtrl.Delta.BusEvent.cleared "B" "x" "T1"] := by
  exact ⟨by decide, by decide⟩

/-- C5 (amended): the events of one `ingest` call over a stored previous
snapshot appear in the order given by `ingestOrderSpec` — for each site of
the alarm-key union (previous snapshot's key order first, then newly
appearing sites), that site's `alarm.raised` then its `alarm.cleared`
events; after all alarm events, for each site of the service-key union, its
`antenna1` then `antenna2` `service.changed` events.  Every event emitted by
the call carries the same timestamp string. -/
theorem C5_ingest_order_and_timestamps (prevA : LaunchCtrl.Delta.AlarmView)
    (prevS : LaunchCtrl.Delta.SvcView) (b : Bool)
    (snap : LaunchCtrl.Delta.Snapshot) (ts : String) :
    (LaunchCtrl.Delta.ingest (some (prevA, prevS)) b snap ts).2 =
      LaunchCtrl.Delta.ingestOrderSpec prevA prevS snap ts ∧
    (∀ e ∈ (LaunchCtrl.Delta.ingest (some (prevA, prevS)) b snap ts).2,
      LaunchCtrl.Delta.eventTs e = ts) := by
  have horder :
      (LaunchCtrl.Delta.ingest (some (prevA, prevS)) b snap ts).2 =
        LaunchCtrl.Delta.ingestOrderSpec prevA prevS snap ts := by
    simp only [LaunchCtrl.Delta.ingest, LaunchCtrl.Delta.ingestOrderSpec,
      LaunchCtrl.Delta.alarmEvents, LaunchCtrl.Delta.svcEvents]
    rw [LaunchCtrl.Delta.foldl_append_eq_flatMap,
      LaunchCtrl.Delta.foldl_append_eq_flatMap]
    simp
  refine ⟨horder, ?_⟩
  intro e he
  rw [horder] at he
  simp only [LaunchCtrl.Delta.ingestOrderSpec, List.mem_append,
    List.mem_flatMap] at he
  rcases he with ⟨site, _, hm⟩ | ⟨site, _, hm⟩
  · exact LaunchCtrl.Delta.eventTs_siteAlarmDelta hm
  · exact LaunchCtrl.Delta.eventTs_siteSvcDelta hm

/-- Witness for C5 (amended) at the concrete snapshots of the counterexample:
both emitted events carry the call's single timestamp `"T1"`. -/
theorem C5_ingest_order_and_timestamps_witness :
    (LaunchCtrl.Delta.ingest
        (some (LaunchCtrl.Delta.ingest none true
          [("B", ⟨["x"], some "Available", some "Available"⟩),
           ("A", ⟨[], some "Available", some "Available"⟩)] "T0").1)
        true
        [("A", ⟨["y"], some "Available", some "Available"⟩),
         ("B", ⟨[], some "Available", some "Available"⟩)] "T1").2 =
      LaunchCtrl.Delta.ingestOrderSpec
        (LaunchCtrl.Delta.ingest none true
          [("B", ⟨["x"], some "Available", some "Available"⟩),
           ("A", ⟨[], some "Available", some "Available"⟩)] "T0").1.1
        (LaunchCtrl.Delta.ingest none true
          [("B", ⟨["x"], some "Available", some "Available"⟩),
           ("A", ⟨[], some "Available", some "Available"⟩)] "T0").1.2
        [("A", ⟨["y"], some "Available", some "Available"⟩),
         ("B", ⟨[], some "Available", some "Available"⟩)] "T1" ∧
    LaunchCtrl.Delta.eventTs
      (LaunchCtrl.Delta.BusEvent.cleared "B" "x" "T1") = "T1" := by
  constructor
  · exact (C5_ingest_order_and_timestamps _ _ true _ "T1").1
  · exact (C5_ingest_order_and_timestamps
      (LaunchCtrl.Delta.ingest none true
        [("B", ⟨["x"], some "Available", some "Available"⟩),
         ("A", ⟨[], some "Available", some "Available"⟩)] "T0").1.1
      (LaunchCtrl.Delta.ingest none true
        [("B", ⟨["x"], some "Available", some "Available"⟩),
         ("A", ⟨[], some "Available", some "Available"⟩)] "T0").1.2
      true
      [("A", ⟨["y"], some "Available", some "Available"⟩),
       ("B", ⟨[], some "Available", some "Available"⟩)] "T1").2
      (LaunchCtrl.Delta.BusEvent.cleared "B" "x" "T1") (by decide)

namespace LaunchCtrl.AgentA

/-- An input of the batch `correlate(events)` (the Supervisor passes
`{ siteId, type: evt.alarm || evt.type, timestamp }`). -/
structure CorrEvent where
  siteId : Option String
  type : Option String
  alarm : Option String
  timestamp : String
deriving Repr, DecidableEq

/-- `NOISE_ALARMS` of server/utils/policy.js. -/
def NOISE_ALARMS : List String := ["unknown", "heartbeat", "noop"]

/-- `isNoiseAlarm`. -/
def isNoiseAlarm (a : String) : Bool := NOISE_ALARMS.contains (lowerStr a)

/-- `CRITICAL_PATTERNS` (each applied as a case-insensitive substring test). -/
def CRITICAL_PATTERNS : List String := ["ServiceUnavailable", "HeartbeatFailure", "MainsFailure"]

/-- `isCriticalAlarm`. -/
def isCriticalAlarm (a : String) : Bool :=
  if a.isEmpty then false else CRITICAL_PATTERNS.any (fun p => containsCI a p)

/-- `e.siteId ?? 'unknown'`. -/
def evSite (e : CorrEvent) : String := e.siteId.getD "unknown"

/-- `e.type || e.alarm || 'unknown'`. -/
def evTyp (e : CorrEvent) : String := jsOr2 e.type e.alarm "unknown"

/-- `String(policy.alarmPrioritization || '').toLowerCase() || 'critical first'`. -/
def policyMode (alarmPrioritization : String) : String :=
  let m := lowerStr alarmPrioritization
  if m.isEmpty then "critical first" else m

/-- The filter predicate of the batch `correlate`. -/
def keepEvent (mode : String) (e : CorrEvent) : Bool :=
  let siteId := evSite e
  let typ := evTyp e
  if siteId.isEmpty || siteId = "unknown" then false
  else if isNoiseAlarm typ then false
  else if mode = "critical first" && !(isCriticalAlarm typ) then false
  else true

/-- `bySite.get(k).push(e)` / `bySite.set(k, [e])` over an insertion-ordered
map. -/
def insertGroup (m : List (String × List CorrEvent)) (k : String) (e : CorrEvent) :
    List (String × List CorrEvent) :=
  if m.any (fun p => p.1 = k) then
    m.map (fun p => if p.1 = k then (p.1, p.2 ++ [e]) else p)
  else m ++ [(k, [e])]

/-- The grouping loop of `correlate`. -/
def groupBySite (l : List CorrEvent) : List (String × List CorrEvent) :=
  l.foldl (fun m e => insertGroup m (e.siteId.getD "") e) []

/-- Insertion into a timestamp-sorted list (models the comparator
`(a, b) => new Date(a.timestamp) - new Date(b.timestamp)`; `tsMs` is the
numeric reading of a timestamp string). -/
def insertByTs (tsMs : String → Int) (e : CorrEvent) : List CorrEvent → List CorrEvent
  | [] => [e]
  | x :: xs =>
    if tsMs x.timestamp ≤ tsMs e.timestamp then x :: insertByTs tsMs e xs
    else e :: x :: xs

/-- `list.sort(byTimestamp)`. -/
def sortByTs (tsMs : String → Int) : List CorrEvent → List CorrEvent
  | [] => []
  | x :: xs => insertByTs tsMs x (sortByTs tsMs xs)

/-- `WINDOW_MS = this.windowMs` (5 minutes). -/
def WINDOW_MS : Int := 5 * 60 * 1000

/-- The running (not yet pushed) incident `cur`. -/
structure CurInc where
  start : String
  endTs : String
  count : Nat
  types : List (Option String)
  events : List CorrEvent
deriving Repr, DecidableEq

/-- A pushed incident; `endTs` is the source's `end` field. -/
structure Incident where
  siteId : String
  start : String
  endTs : String
  count : Nat
  types : List (Option String)
  events : List CorrEvent
deriving Repr, DecidableEq

/-- `ev.type || ev.alarm` as stored in the `types` set. -/
def typeOrAlarm (e : CorrEvent) : Option String := jsOrOpt e.type e.alarm

/-- `Set.add` on the insertion-ordered `types` list. -/
def addType (ts : List (Option String)) (t : Option String) : List (Option String) :=
  if t ∈ ts then ts else ts ++ [t]

/-- `PUSH()`. -/
def closeInc (site : String) (c : CurInc) : Incident :=
  ⟨site, c.start, c.endTs, c.count, c.types, c.events⟩

/-- A fresh `cur` from one event. -/
def newCur (e : CorrEvent) : CurInc :=
  ⟨e.timestamp, e.timestamp, 1, [typeOrAlarm e], [e]⟩

/-- The body of the per-site window loop. -/
def windowStep (tsMs : String → Int) (site : String)
    (st : Option CurInc × List Incident) (ev : CorrEvent) :
    Option CurInc × List Incident :=
  match st.1 with
  | none => (some (newCur ev), st.2)
  | some cur =>
    if tsMs ev.timestamp - tsMs cur.endTs ≤ WINDOW_MS then
      (some { cur with endTs := ev.timestamp, count := cur.count + 1,
                       types := addType cur.types (typeOrAlarm ev),
                       events := cur.events ++ [ev] }, st.2)
    else
      (some (newCur ev), st.2 ++ [closeInc site cur])

/-- The trailing `PUSH()` after the per-site loop. -/
def finishWindow (site : String) (st : Option CurInc × List Incident) :
    List Incident :=
  match st.1 with
  | none => st.2
  | some cur => st.2 ++ [closeInc site cur]

/-- The per-site window loop plus the trailing `PUSH()`. -/
def windowGroup (tsMs : String → Int) (site : String) (l : List CorrEvent) :
    List Incident :=
  finishWindow site (l.foldl (windowStep tsMs site) (none, []))

/-- Batch `correlate(events)` of the streaming CorrelationAgent: noise and
policy filter, group by site, sort each site by timestamp, window-group. -/
def correlate (alarmPrioritization : String) (tsMs : String → Int)
    (events : List CorrEvent) : List Incident :=
  let mode := policyMode alarmPrioritization
  let filtered := events.filter (keepEvent mode)
  let groups := groupBySite filtered
  groups.foldl (fun acc g => acc ++ windowGroup tsMs g.1 (sortByTs tsMs g.2)) []

theorem mem_insertByTs {tsMs : String → Int} {e x : CorrEvent} :
    ∀ {l : List CorrEvent}, x ∈ insertByTs tsMs e l → x = e ∨ x ∈ l := by
  intro l
  induction l with
  | nil => simp [insertByTs]
  | cons y ys ih =>
    unfold insertByTs
    split
    · intro h
      rcases List.mem_cons.mp h with rfl | h
      · exact Or.inr (List.mem_cons_self _ _)
      · rcases ih h with h | h
        · exact Or.inl h
        · exact Or.inr (List.mem_cons_of_mem _ h)
    · intro h
      rcases List.mem_cons.mp h with rfl | h
      · exact Or.inl rfl
      · exact Or.inr h

theorem mem_sortByTs {tsMs : String → Int} {x : CorrEvent} :
    ∀ {l : List CorrEvent}, x ∈ sortByTs tsMs l → x ∈ l := by
  intro l
  induction l with
  | nil => simp [sortByTs]
  | cons y ys ih =>
    unfold sortByTs
    intro h
    rcases mem_insertByTs h with rfl | h
    · exact List.mem_cons_self _ _
    · exact List.mem_cons_of_mem _ (ih h)

theorem windowStep_events {P : CorrEvent → Prop} {tsMs : String → Int}
    {site : String} {cur? : Option CurInc} {acc : List Incident} {ev : CorrEvent}
    (hacc : ∀ inc ∈ acc, ∀ x ∈ inc.events, P x)
    (hcur : ∀ c, cur? = some c → ∀ x ∈ c.events, P x)
    (hev : P ev) :
    (∀ inc ∈ (windowStep tsMs site (cur?, acc) ev).2, ∀ x ∈ inc.events, P x) ∧
    (∀ c, (windowStep tsMs site (cur?, acc) ev).1 = some c → ∀ x ∈ c.events, P x) := by
  cases cur? with
  | none =>
    refine ⟨hacc, ?_⟩
    intro c hc x hx
    obtain rfl : newCur ev = c := by
      simpa [windowStep] using hc
    simp only [newCur, List.mem_singleton] at hx
    subst hx
    exact hev
  | some cur =>
    simp only [windowStep]
    split
    · refine ⟨hacc, ?_⟩
      intro c hc x hx
      obtain rfl : _ = c := by injection hc
      simp only at hx
      rcases List.mem_append.mp hx with hx | hx
      · exact hcur cur rfl x hx
      · simp at hx
        subst hx
        exact hev
    · constructor
      · intro inc hinc x hx
        rcases List.mem_append.mp hinc with hinc | hinc
        · exact hacc inc hinc x hx
        · simp at hinc
          subst hinc
          exact hcur cur rfl x (by simpa [closeInc] using hx)
      · intro c hc x hx
        obtain rfl : newCur ev = c := by injection hc
        simp only [newCur, List.mem_singleton] at hx
        subst hx
        exact hev

theorem windowFold_events {P : CorrEvent → Prop} {tsMs : String → Int}
    {site : String} :
    ∀ (l : List CorrEvent) (st : Option CurInc × List Incident),
      (∀ inc ∈ st.2, ∀ x ∈ inc.events, P x) →
      (∀ c, st.1 = some c → ∀ x ∈ c.events, P x) →
      (∀ ev ∈ l, P ev) →
      (∀ inc ∈ (l.foldl (windowStep tsMs site) st).2, ∀ x ∈ inc.events, P x) ∧
      (∀ c, (l.foldl (windowStep tsMs site) st).1 = some c → ∀ x ∈ c.events, P x) := by
  intro l
  induction l with
  | nil => intro st hacc hcur _; exact ⟨hacc, hcur⟩
  | cons ev evs ih =>
    rintro ⟨cur?, acc⟩ hacc hcur hl
    have h1 := @windowStep_events P tsMs site cur? acc ev
      hacc hcur (hl ev (List.mem_cons_self _ _))
    exact ih _ h1.1 h1.2 (fun x hx => hl x (List.mem_cons_of_mem _ hx))

theorem finishWindow_events {P : CorrEvent → Prop} {site : String}
    {st : Option CurInc × List Incident}
    (hacc : ∀ inc ∈ st.2, ∀ x ∈ inc.events, P x)
    (hcur : ∀ c, st.1 = some c → ∀ x ∈ c.events, P x) :
    ∀ inc ∈ finishWindow site st, ∀ x ∈ inc.events, P x := by
  obtain ⟨cur?, acc⟩ := st
  cases cur? with
  | none => exact hacc
  | some cur =>
    intro inc hinc x hx
    rcases List.mem_append.mp hinc with hinc | hinc
    · exact hacc inc hinc x hx
    · simp only [List.mem_singleton] at hinc
      subst hinc
      exact hcur cur rfl x (by simpa [closeInc] using hx)

theorem windowGroup_events {P : CorrEvent → Prop} {tsMs : String → Int}
    {site : String} {l : List CorrEvent} (hl : ∀ ev ∈ l, P ev) :
    ∀ inc ∈ windowGroup tsMs site l, ∀ x ∈ inc.events, P x := by
  unfold windowGroup
  have h := @windowFold_events P tsMs site l (none, [])
    (by simp) (by simp) hl
  exact finishWindow_events h.1 h.2

theorem insertGroup_values {P : CorrEvent → Prop}
    {m : List (String × List CorrEvent)} {k : String} {e : CorrEvent}
    (hm : ∀ g ∈ m, ∀ x ∈ g.2, P x) (he : P e) :
    ∀ g ∈ insertGroup m k e, ∀ x ∈ g.2, P x := by
  unfold insertGroup
  split
  · intro g hg x hx
    obtain ⟨p, hp, hpe⟩ := List.mem_map.mp hg
    by_cases hk : p.1 = k
    · simp only [hk, if_true] at hpe
      subst hpe
      simp only at hx
      rcases List.mem_append.mp hx with hx | hx
      · exact hm p hp x hx
      · simp at hx
        subst hx
        exact he
    · simp only [hk, if_false] at hpe
      subst hpe
      exact hm p hp x hx
  · intro g hg x hx
    rcases List.mem_append.mp hg with hg | hg
    · exact hm g hg x hx
    · simp at hg
      subst hg
      simp at hx
      subst hx
      exact he

theorem groupBySite_values {l : List CorrEvent} :
    ∀ g ∈ groupBySite l, ∀ x ∈ g.2, x ∈ l := by
  unfold groupBySite
  suffices h : ∀ (l2 : List CorrEvent) (m : List (String × List CorrEvent)),
      (∀ g ∈ m, ∀ x ∈ g.2, x ∈ l) → (∀ e ∈ l2, e ∈ l) →
      ∀ g ∈ l2.foldl (fun m e => insertGroup m (e.siteId.getD "") e) m, ∀ x ∈ g.2, x ∈ l by
    exact h l [] (by simp) (fun _ h => h)
  intro l2
  induction l2 with
  | nil => intro m hm _; exact hm
  | cons e es ih =>
    intro m hm hl2
    exact ih _ (insertGroup_values hm (hl2 e (List.mem_cons_self _ _)))
      (fun x hx => hl2 x (List.mem_cons_of_mem _ hx))

theorem correlate_events_kept {pol : String} {tsMs : String → Int}
    {events : List CorrEvent} :
    ∀ inc ∈ correlate pol tsMs events, ∀ x ∈ inc.events,
      keepEvent (policyMode pol) x = true := by
  unfold correlate
  intro inc hinc x hx
  rw [LaunchCtrl.Delta.foldl_append_eq_flatMap] at hinc
  simp only [List.nil_append, List.mem_flatMap] at hinc
  obtain ⟨g, hg, hginc⟩ := hinc
  have hxl : x ∈ sortByTs tsMs g.2 :=
    windowGroup_events (P := fun y => y ∈ sortByTs tsMs g.2) (fun _ h => h) inc hginc x hx
  have hxg : x ∈ g.2 := mem_sortByTs hxl
  have hfil : x ∈ events.filter (keepEvent (policyMode pol)) :=
    groupBySite_values g hg x hxg
  exact (List.mem_filter.mp hfil).2

theorem keepEvent_false_of_bad {pol : String} {e : CorrEvent}
    (hbad :
      (e.siteId = none ∨ e.siteId = some "" ∨ e.siteId = some "unknown") ∨
      lowerStr (evTyp e) ∈ NOISE_ALARMS ∨
      (pol = "Critical First" ∧ ∀ p ∈ CRITICAL_PATTERNS, containsCI (evTyp e) p = false)) :
    keepEvent (policyMode pol) e = false := by
  rcases hbad with hsite | hnoise | ⟨hpol, hcrit⟩
  · have h : evSite e = "" ∨ evSite e = "unknown" := by
      rcases hsite with h | h | h <;> simp [evSite, h]
    unfold keepEvent
    rcases h with h | h <;>
      simp [h, show ("" : String).isEmpty = true from by decide]
  · have hn : isNoiseAlarm (evTyp e) = true := by
      simp only [NOISE_ALARMS, List.mem_cons, List.not_mem_nil, or_false] at hnoise
      rcases hnoise with h | h | h <;> simp [isNoiseAlarm, h, NOISE_ALARMS]
    unfold keepEvent
    simp [hn, ite_self]
  · subst hpol
    have hm : policyMode "Critical First" = "critical first" := by decide
    have hc : isCriticalAlarm (evTyp e) = false := by
      unfold isCriticalAlarm
      split
      · rfl
      · exact List.any_eq_false.mpr (fun p hp => by simp [hcrit p hp])
    unfold keepEvent
    simp [hm, hc, ite_self]

end LaunchCtrl.AgentA

/-- C6: in Agent A's batch `correlate(events)` (the streaming
CorrelationAgent's version, which applies the noise and policy filters), an
event contributes to no returned incident if its `siteId` is absent, empty or
`"unknown"`, or if its `type || alarm` lowercases to one of
`unknown`/`heartbeat`/`noop`, or if `policy.alarmPrioritization` is
`"Critical First"` and the code matches none of `ServiceUnavailable`,
`HeartbeatFailure`, `MainsFailure` as a case-insensitive substring. -/
theorem C6_correlate_noise_filter (pol : String) (tsMs : String → Int)
    (events : List LaunchCtrl.AgentA.CorrEvent) (e : LaunchCtrl.AgentA.CorrEvent)
    (hbad :
      (e.siteId = none ∨ e.siteId = some "" ∨ e.siteId = some "unknown") ∨
      LaunchCtrl.lowerStr (LaunchCtrl.AgentA.evTyp e) ∈ LaunchCtrl.AgentA.NOISE_ALARMS ∨
      (pol = "Critical First" ∧
        ∀ p ∈ LaunchCtrl.AgentA.CRITICAL_PATTERNS,
          LaunchCtrl.containsCI (LaunchCtrl.AgentA.evTyp e) p = false)) :
    ∀ inc ∈ LaunchCtrl.AgentA.correlate pol tsMs events, e ∉ inc.events := by
  intro inc hinc he
  have hk := LaunchCtrl.AgentA.correlate_events_kept inc hinc e he
  rw [LaunchCtrl.AgentA.keepEvent_false_of_bad hbad] at hk
  exact Bool.false_ne_true hk

/-- Witness for C6: with policy `"Critical First"`, correlating a critical
event together with a `heartbeat` noise event yields one incident that
contains only the critical event — the noise event is filtered out. -/
theorem C6_correlate_noise_filter_witness :
    LaunchCtrl.AgentA.correlate "Critical First" (fun _ => 0)
        [⟨some "S1", some "MainsFailure", none, "t0"⟩,
         ⟨some "S1", some "heartbeat", none, "t0"⟩] =
      [⟨"S1", "t0", "t0", 1, [some "MainsFailure"],
        [⟨some "S1", some "MainsFailure", none, "t0"⟩]⟩] ∧
    (⟨some "S1", some "heartbeat", none, "t0"⟩ : LaunchCtrl.AgentA.CorrEvent) ∉
      (⟨"S1", "t0", "t0", 1, [some "MainsFailure"],
        [⟨some "S1", some "MainsFailure", none, "t0"⟩]⟩ :
          LaunchCtrl.AgentA.Incident).events := by
  have hcorr :
      LaunchCtrl.AgentA.correlate "Critical First" (fun _ => 0)
          [⟨some "S1", some "MainsFailure", none, "t0"⟩,
           ⟨some "S1", some "heartbeat", none, "t0"⟩] =
        [⟨"S1", "t0", "t0", 1, [some "MainsFailure"],
          [⟨some "S1", some "MainsFailure", none, "t0"⟩]⟩] := by decide
  refine ⟨hcorr, ?_⟩
  have h := C6_correlate_noise_filter "Critical First" (fun _ => 0)
    [⟨some "S1", some "MainsFailure", none, "t0"⟩,
     ⟨some "S1", some "heartbeat", none, "t0"⟩]
    ⟨some "S1", some "heartbeat", none, "t0"⟩
    (Or.inr (Or.inl (by decide)))
  exact h _ (by rw [hcorr]; exact List.mem_singleton.mpr rfl)

namespace LaunchCtrl.AgentB

/-- A site as read from `snap.state.sites[siteId]` by Agent B. -/
structure Site where
  mains : Option String
  siteAlive : Option Bool
  batteryPercent : Option Int
  antenna1 : Option String
  antenna2 : Option String
deriving Repr, DecidableEq

/-- A device request issued against the tower simulator. -/
inductive Req where
  | powerOn (siteId : String)
  | rruOn (siteId antenna : String)
  | rruOff (siteId antenna : String)
deriving Repr, DecidableEq

/-- One detected alarm `{ code, detail }`. -/
structure Alarm where
  code : String
  detail : String
deriving Repr, DecidableEq

def MAX_SWEEPS : Nat := 3
def MAX_RRU_ATTEMPTS : Nat := 3

/-- `_detectAlarms(site)`. -/
def detectAlarms : Option Site → List Alarm
  | none => []
  | some s =>
    (if s.mains = some "off" then [⟨"Mains.Off", "Grid power off"⟩] else []) ++
    (if s.siteAlive = some false then [⟨"Site.Down", "Site not reachable/booting"⟩] else []) ++
    (if s.antenna1 = some "Unavailable" then
      [⟨"Antenna.A1.Unavailable", "A1 RRU/service down"⟩] else []) ++
    (if s.antenna2 = some "Unavailable" then
      [⟨"Antenna.A2.Unavailable", "A2 RRU/service down"⟩] else []) ++
    (if s.mains = some "off" ∧ s.batteryPercent.getD 100 < 40 then
      [⟨"Battery.Low.GridDown",
        "Battery " ++ toString (s.batteryPercent.getD 100) ++ "% with grid down"⟩]
     else [])

/-- `_buildPlan(siteId, site)`: alarms and ordered steps. -/
def buildPlan (siteId : String) (site? : Option Site) :
    List Alarm × List LaunchCtrl.Supervisor.Step :=
  let alarms := detectAlarms site?
  let steps :=
    (if alarms.any (fun a => a.code = "Mains.Off") then
      [⟨"power.on", siteId, none, "Restore grid power"⟩] else []) ++
    (if alarms.any (fun a => a.code = "Antenna.A1.Unavailable") then
      [⟨"rru.ensure", siteId, some "a1", "Heal A1 to Available"⟩] else []) ++
    (if alarms.any (fun a => a.code = "Antenna.A2.Unavailable") then
      [⟨"rru.ensure", siteId, some "a2", "Heal A2 to Available"⟩] else []) ++
    (if (site?.bind Site.mains) = some "off" ∧
        (site?.bind Site.batteryPercent).getD 100 < 40 ∧
        (site?.bind Site.antenna1) = some "Available" ∧
        (site?.bind Site.antenna2) = some "Available" then
      [⟨"rru.off", siteId, some "a2", "Extend autonomy; keep A1 only"⟩] else [])
  (alarms, steps)

/-- `antenna === 'a1' ? s?.antenna1?.service : s?.antenna2?.service`. -/
def svcOf (antenna : String) : Option Site → Option String
  | none => none
  | some s => if antenna = "a1" then s.antenna1 else s.antenna2

/-- `s && s.mains === 'on' && !s.siteAlive`. -/
def needWait : Option Site → Bool
  | none => false
  | some s => if s.mains = some "on" ∧ s.siteAlive ≠ some true then true else false

/-- `_waitAndGet(siteId, tries)`: up to `tries` reads, returning the first
non-null site (and the next read index), else `none`. -/
def waitAndGet (oracle : Nat → Option Site) : Nat → Nat → Option Site × Nat
  | 0, k => (none, k)
  | tries + 1, k =>
    match oracle k with
    | some s => (some s, k + 1)
    | none => waitAndGet oracle tries (k + 1)

/-- `await this._waitAndGet(...) || site`. -/
def waitOr (oracle : Nat → Option Site) (tries k : Nat) (site : Option Site) :
    Option Site × Nat :=
  let r := waitAndGet oracle tries k
  ((match r.1 with | some x => some x | none => site), r.2)

/-- The outcome of `_healRadio` together with its observable trace: device
requests issued, the sequence of checked service readings, the number of
attempts performed, and the next read index. -/
structure HealResult where
  ok : Bool
  error : Option String
  attempts : Nat
  requests : List Req
  checks : List (Option String)
  kEnd : Nat
deriving Repr, DecidableEq

/-- The attempt loop of `_healRadio`, with `fuel` remaining attempts.  Each
attempt: RRU ON, read (waiting out a booting site), check; if still not
Available: RRU OFF, RRU ON, read, check; else next attempt. -/
def healGo (oracle : Nat → Option Site) (siteId antenna : String) :
    Nat → Nat → HealResult
  | 0, k => ⟨false, some "rru_unavailable", 0, [], [], k⟩
  | fuel + 1, k =>
    let s1 := oracle k
    let w := if needWait s1 then waitOr oracle 3 (k + 1) s1 else (s1, k + 1)
    let c1 := svcOf antenna w.1
    if c1 = some "Available" then
      ⟨true, none, 1, [.rruOn siteId antenna], [c1], w.2⟩
    else
      let c2 := svcOf antenna (oracle w.2)
      if c2 = some "Available" then
        ⟨true, none, 1,
         [.rruOn siteId antenna, .rruOff siteId antenna, .rruOn siteId antenna],
         [c1, c2], w.2 + 1⟩
      else
        let r := healGo oracle siteId antenna fuel (w.2 + 1)
        ⟨r.ok, r.error, r.attempts + 1,
         [.rruOn siteId antenna, .rruOff siteId antenna, .rruOn siteId antenna] ++ r.requests,
         c1 :: c2 :: r.checks, r.kEnd⟩

/-- `_healRadio(siteId, antenna)` with read index `k`. -/
def healRadio (oracle : Nat → Option Site) (siteId antenna : String) (k : Nat) :
    HealResult :=
  healGo oracle siteId antenna MAX_RRU_ATTEMPTS k

/-- `_applyStep(step)`: requests issued and reads consumed by one plan step. -/
def applyStep (oracle : Nat → Option Site) (step : LaunchCtrl.Supervisor.Step)
    (k : Nat) : List Req × Nat :=
  if step.action = "power.on" then ([.powerOn step.siteId], k)
  else if step.action = "rru.off" then
    ([.rruOff step.siteId (step.antenna.getD "")], k)
  else if step.action = "rru.ensure" then
    let r := healRadio oracle step.siteId (step.antenna.getD "") k
    (r.requests, r.kEnd)
  else if step.action = "rru.on" then
    ([.rruOn step.siteId (step.antenna.getD "")], k)
  else ([], k)

/-- The first-pass loop over the initial plan. -/
def applySteps (oracle : Nat → Option Site)
    (steps : List LaunchCtrl.Supervisor.Step) (k : Nat) : List Req × Nat :=
  steps.foldl (fun acc st =>
    let r := applyStep oracle st acc.2
    (acc.1 ++ r.1, r.2)) ([], k)

/-- `startsWith` on the underlying characters. -/
def startsWithStr (s pre : String) : Bool := pre.data.isPrefixOf s.data

/-- The per-sweep loop healing each remaining antenna alarm in order. -/
def healAlarms (oracle : Nat → Option Site) (siteId : String) :
    List Alarm → Nat → List LaunchCtrl.Supervisor.Step × List Req × Nat
  | [], k => ([], [], k)
  | ra :: rest, k =>
    let antenna := if containsSub "A1".data ra.code.data then "a1" else "a2"
    let hr := healRadio oracle siteId antenna k
    let r := healAlarms oracle siteId rest hr.kEnd
    (⟨"rru.ensure", siteId, some antenna, "Radio heal sweep"⟩ :: r.1,
     hr.requests ++ r.2.1, r.2.2)

/-- The result of the sweep loop. -/
structure SweepOut where
  actions : List LaunchCtrl.Supervisor.Step
  requests : List Req
  passes : Nat
  site : Option Site
  kEnd : Nat
deriving Repr, DecidableEq

/-- The `while (pass < MAX_SWEEPS)` alarm-sweep loop. -/
def sweepGo (oracle : Nat → Option Site) (siteId : String) :
    Nat → Nat → Option Site → SweepOut
  | 0, k, site => ⟨[], [], 0, site, k⟩
  | rem + 1, k, site =>
    let w := waitOr oracle 1 k site
    let alarms := detectAlarms w.1
    let radioAlarms := alarms.filter (fun a => startsWithStr a.code "Antenna.")
    let mainsOff := alarms.any (fun a => a.code = "Mains.Off")
    let siteDown := alarms.any (fun a => a.code = "Site.Down")
    if ¬ mainsOff ∧ ¬ siteDown ∧ radioAlarms.isEmpty then ⟨[], [], 1, w.1, w.2⟩
    else
      let h := healAlarms oracle siteId radioAlarms w.2
      let pw : List LaunchCtrl.Supervisor.Step × List Req :=
        if mainsOff then ([⟨"power.on", siteId, none, "Sweep retry"⟩], [.powerOn siteId])
        else ([], [])
      let r := sweepGo oracle siteId rem h.2.2 w.1
      ⟨h.1 ++ pw.1 ++ r.actions, h.2.1 ++ pw.2 ++ r.requests, 1 + r.passes, r.site, r.kEnd⟩

/-- The return record of `mitigateSite` (fields the HITL and error returns do
not mention are defaulted to empty). -/
structure MitResult where
  ok : Bool
  error : Option String
  plan : List LaunchCtrl.Supervisor.Step
  alarms : List Alarm
  site : Option Site
  actionsTaken : List LaunchCtrl.Supervisor.Step
  clearedAlarms : List Alarm
  remainingAlarms : List Alarm
  passes : Nat
  allClear : Bool
deriving Repr, DecidableEq

/-- An error return `{ ok:false, error }`. -/
def errResult (e : String) : MitResult :=
  ⟨false, some e, [], [], none, [], [], [], 0, false⟩

/-- `mitigateSite(siteId)`: the result together with the device requests the
call issues, given the agent status, the current `policy.waysOfWorking`, and
the snapshot-read oracle starting at read index `k`. -/
def mitigateSite (status wow : String) (oracle : Nat → Option Site) (k : Nat)
    (siteId : String) : MitResult × List Req :=
  if status ≠ "running" then (errResult "Agent not running", [])
  else
    match oracle k with
    | none => (errResult "site_not_found", [])
    | some st =>
      let initial := buildPlan siteId (some st)
      if ¬ (lowerStr wow = "e2e automation") then
        ({ errResult "approval_required" with
            plan := initial.2, alarms := initial.1, site := some st }, [])
      else
        let ap := applySteps oracle initial.2 (k + 1)
        let w1 := waitOr oracle 2 ap.2 (some st)
        let w2 := if needWait w1.1 then waitOr oracle 3 w1.2 w1.1 else w1
        let sw := sweepGo oracle siteId MAX_SWEEPS w2.2 w2.1
        let wf := waitOr oracle 2 sw.kEnd sw.site
        let finalAlarms := detectAlarms wf.1
        let cleared := initial.1.filter
          (fun a0 => ¬ finalAlarms.any (fun a1 => a1.code = a0.code))
        ({ ok := true, error := none, plan := [], alarms := [],
           site := wf.1, actionsTaken := initial.2 ++ sw.actions,
           clearedAlarms := cleared, remainingAlarms := finalAlarms,
           passes := sw.passes, allClear := finalAlarms.isEmpty },
         ap.1 ++ sw.requests)

/-- The HITL branch of `mitigateSite`, fully evaluated: running agent, site
found, policy not E2E (lowercased) — plan returned, nothing executed. -/
theorem mitigateSite_hitl {wow : String} (oracle : Nat → Option Site) (k : Nat)
    (siteId : String) {st : Site} (hsite : oracle k = some st)
    (hwow : ¬ (lowerStr wow = "e2e automation")) :
    mitigateSite "running" wow oracle k siteId =
      ({ ok := false, error := some "approval_required",
         plan := (buildPlan siteId (some st)).2,
         alarms := (buildPlan siteId (some st)).1,
         site := some st, actionsTaken := [], clearedAlarms := [],
         remainingAlarms := [], passes := 0, allClear := false }, []) := by
  unfold mitigateSite
  rw [if_neg (by simp)]
  rw [hsite]
  simp only [hwow, not_false_eq_true, if_true, errResult]

theorem healGo_spec (oracle : Nat → Option Site) (siteId antenna : String) :
    ∀ fuel k : Nat,
      (healGo oracle siteId antenna fuel k).attempts ≤ fuel ∧
      ((healGo oracle siteId antenna fuel k).ok = false →
        (healGo oracle siteId antenna fuel k).error = some "rru_unavailable" ∧
        (healGo oracle siteId antenna fuel k).attempts = fuel) ∧
      ((healGo oracle siteId antenna fuel k).ok = true ↔
        some "Available" ∈ (healGo oracle siteId antenna fuel k).checks) ∧
      ((healGo oracle siteId antenna fuel k).ok = true →
        (healGo oracle siteId antenna fuel k).checks.getLast? =
          some (some "Available")) ∧
      ((healGo oracle siteId antenna fuel k).ok = true →
        (healGo oracle siteId antenna fuel k).error = none) := by
  intro fuel
  induction fuel with
  | zero =>
    intro k
    simp [healGo]
  | succ fuel ih =>
    intro k
    unfold healGo
    dsimp only
    generalize (if needWait (oracle k) then waitOr oracle 3 (k + 1) (oracle k)
      else (oracle k, k + 1)) = w
    by_cases h1 : svcOf antenna w.1 = some "Available"
    · simp only [if_pos h1]
      refine ⟨Nat.succ_le_succ (Nat.zero_le _), ?_, ?_, ?_, ?_⟩
      · intro hok
        exact absurd hok (by simp)
      · simp [h1]
      · intro _
        simp [h1]
      · intro _
        trivial
    · simp only [if_neg h1]
      by_cases h2 : svcOf antenna (oracle w.2) = some "Available"
      · simp only [if_pos h2]
        refine ⟨Nat.succ_le_succ (Nat.zero_le _), ?_, ?_, ?_, ?_⟩
        · intro hok
          exact absurd hok (by simp)
        · simp [h2]
        · intro _
          simp [h2]
        · intro _
          trivial
      · simp only [if_neg h2]
        obtain ⟨ih1, ih2, ih3, ih4, ih5⟩ := ih (w.2 + 1)
        refine ⟨Nat.succ_le_succ ih1, ?_, ?_, ?_, ?_⟩
        · intro hok
          obtain ⟨he, ha⟩ := ih2 hok
          exact ⟨he, by omega⟩
        · constructor
          · intro hok
            exact List.mem_cons_of_mem _ (List.mem_cons_of_mem _ (ih3.mp hok))
          · intro hmem
            rcases List.mem_cons.mp hmem with hc | hmem
            · exact absurd hc.symm h1
            · rcases List.mem_cons.mp hmem with hc | hmem
              · exact absurd hc.symm h2
              · exact ih3.mpr hmem
        · intro hok
          have hmem := ih3.mp hok
          obtain ⟨x, xs, hcons⟩ :=
            List.exists_cons_of_ne_nil (List.ne_nil_of_mem hmem)
          show (_ :: _ :: (healGo oracle siteId antenna fuel (w.2 + 1)).checks).getLast? = _
          rw [hcons, List.getLast?_cons_cons, List.getLast?_cons_cons, ← hcons]
          exact ih4 hok
        · intro hok
          exact ih5 hok

end LaunchCtrl.AgentB

/-- C7: when the stored policy's `waysOfWorking` is not `"E2E automation"`
(stored policies always hold one of the canonical `WOW_OPTIONS`), Agent B is
running and the site exists in the snapshot, `mitigateSite(siteId)` returns
`ok:false` with error `approval_required`, the built plan, the detected
alarms and the site — and issues no power or rru device request, leaving the
tower state untouched. -/
theorem C7_mitigate_hitl_no_devices (wow : String)
    (hopt : wow ∈ LaunchCtrl.PolicyStore.WOW_OPTIONS) (hne : wow ≠ "E2E automation")
    (oracle : Nat → Option LaunchCtrl.AgentB.Site) (k : Nat) (siteId : String)
    (st : LaunchCtrl.AgentB.Site) (hsite : oracle k = some st) :
    LaunchCtrl.AgentB.mitigateSite "running" wow oracle k siteId =
      ({ ok := false, error := some "approval_required",
         plan := (LaunchCtrl.AgentB.buildPlan siteId (some st)).2,
         alarms := (LaunchCtrl.AgentB.buildPlan siteId (some st)).1,
         site := some st, actionsTaken := [], clearedAlarms := [],
         remainingAlarms := [], passes := 0, allClear := false }, []) := by
  have hwow : wow = "Human intervention at critical steps" := by
    simp only [LaunchCtrl.PolicyStore.WOW_OPTIONS, List.mem_cons,
      List.not_mem_nil, or_false] at hopt
    rcases hopt with h | h
    · exact absurd h hne
    · exact h
  subst hwow
  exact LaunchCtrl.AgentB.mitigateSite_hitl oracle k siteId hsite (by decide)

/-- Witness for C7 at a concrete degraded site: HITL mitigation proposes a
plan and issues no device request. -/
theorem C7_mitigate_hitl_no_devices_witness :
    LaunchCtrl.AgentB.mitigateSite "running" "Human intervention at critical steps"
        (fun _ => some ⟨some "off", some false, some 80, some "Unavailable", some "Available"⟩)
        0 "S1" =
      ({ ok := false, error := some "approval_required",
         plan := (LaunchCtrl.AgentB.buildPlan "S1"
           (some ⟨some "off", some false, some 80, some "Unavailable", some "Available"⟩)).2,
         alarms := (LaunchCtrl.AgentB.buildPlan "S1"
           (some ⟨some "off", some false, some 80, some "Unavailable", some "Available"⟩)).1,
         site := some ⟨some "off", some false, some 80, some "Unavailable", some "Available"⟩,
         actionsTaken := [], clearedAlarms := [], remainingAlarms := [],
         passes := 0, allClear := false }, []) :=
  C7_mitigate_hitl_no_devices "Human intervention at critical steps" (by decide)
    (by decide) _ 0 "S1" _ rfl

/-- C8: Agent B's radio-heal loop `_healRadio` performs at most 3 attempts;
it returns `ok:true` exactly when one of its post-command service reads shows
`"Available"`, and then that successful read is the last check performed
(early termination); when no check succeeds it returns `ok:false` with error
`rru_unavailable` after exactly 3 attempts. -/
theorem C8_heal_radio_attempts (oracle : Nat → Option LaunchCtrl.AgentB.Site)
    (siteId antenna : String) (k : Nat) :
    (LaunchCtrl.AgentB.healRadio oracle siteId antenna k).attempts ≤ 3 ∧
    ((LaunchCtrl.AgentB.healRadio oracle siteId antenna k).ok = true ↔
      some "Available" ∈ (LaunchCtrl.AgentB.healRadio oracle siteId antenna k).checks) ∧
    ((LaunchCtrl.AgentB.healRadio oracle siteId antenna k).ok = true →
      (LaunchCtrl.AgentB.healRadio oracle siteId antenna k).checks.getLast? =
        some (some "Available") ∧
      (LaunchCtrl.AgentB.healRadio oracle siteId antenna k).error = none) ∧
    ((LaunchCtrl.AgentB.healRadio oracle siteId antenna k).ok = false →
      (LaunchCtrl.AgentB.healRadio oracle siteId antenna k).error =
        some "rru_unavailable" ∧
      (LaunchCtrl.AgentB.healRadio oracle siteId antenna k).attempts = 3) := by
  obtain ⟨h1, h2, h3, h4, h5⟩ :=
    LaunchCtrl.AgentB.healGo_spec oracle siteId antenna LaunchCtrl.AgentB.MAX_RRU_ATTEMPTS k
  exact ⟨h1, h3, fun hok => ⟨h4 hok, h5 hok⟩, h2⟩

/-- Witness for C8: an oracle whose site reports the antenna `"Available"` on
the first read heals in one attempt; with the antenna permanently
`"Unavailable"` the loop fails with `rru_unavailable` after 3 attempts. -/
theorem C8_heal_radio_attempts_witness :
    (LaunchCtrl.AgentB.healRadio
        (fun _ => some ⟨some "on", some true, some 100, some "Available", some "Available"⟩)
        "S1" "a1" 0).attempts ≤ 3 ∧
    (LaunchCtrl.AgentB.healRadio
        (fun _ => some ⟨some "on", some true, some 100, some "Available", some "Available"⟩)
        "S1" "a1" 0).ok = true ∧
    (LaunchCtrl.AgentB.healRadio
        (fun _ => some ⟨some "on", some true, some 100, some "Unavailable", some "Available"⟩)
        "S1" "a1" 0).error = some "rru_unavailable" ∧
    (LaunchCtrl.AgentB.healRadio
        (fun _ => some ⟨some "on", some true, some 100, some "Unavailable", some "Available"⟩)
        "S1" "a1" 0).attempts = 3 := by
  have hgood := C8_heal_radio_attempts
    (fun _ => some ⟨some "on", some true, some 100, some "Available", some "Available"⟩)
    "S1" "a1" 0
  have hbad := C8_heal_radio_attempts
    (fun _ => some ⟨some "on", some true, some 100, some "Unavailable", some "Available"⟩)
    "S1" "a1" 0
  refine ⟨hgood.1, ?_, ?_, ?_⟩
  · exact hgood.2.1.mpr (by decide)
  · exact (hbad.2.2.2 (by decide)).1
  · exact (hbad.2.2.2 (by decide)).2

namespace LaunchCtrl.AgentC

/-- A recorded RCA case. -/
structure Case where
  ts : String
  siteId : String
  cause : String
  actions : List LaunchCtrl.Supervisor.Step
  resolution : String
  ongoing : Bool
  dispatchSuggested : Bool
  summary : String
deriving Repr, DecidableEq

/-- `NOISE_CAUSES` (compared lowercased). -/
def NOISE_CAUSES : List String := ["unknown", "heartbeat", "noop"]

/-- `_isNoise({siteId, cause})`. -/
def isNoise (siteId cause : String) : Bool :=
  if siteId.isEmpty ∨ siteId = "unknown" ∨ lowerStr cause ∈ NOISE_CAUSES then true
  else false

/-- Agent C's mutable state: lifecycle status, the casebook, and the
per-site `_lastBySite` dedup map `siteId → (cause, resolution, ts)`. -/
structure CState where
  status : String
  casebook : List Case
  lastBySite : List (String × String × String × Nat)
deriving Repr, DecidableEq

/-- `Map.set` on the insertion-ordered `_lastBySite`. -/
def mapSet (m : List (String × String × String × Nat)) (k : String)
    (v : String × String × Nat) : List (String × String × String × Nat) :=
  if m.any (fun p => p.1 = k) then m.map (fun p => if p.1 = k then (k, v) else p)
  else m ++ [(k, v)]

/-- `DEDUP_WINDOW_MS`. -/
def DEDUP_WINDOW_MS : Nat := 10000

/-- `_dedup(siteId, cause, resolution)`: `true` means suppress; otherwise the
map is updated with the new record. -/
def dedup (st : CState) (now : Nat) (siteId cause resolution : String) :
    Bool × CState :=
  match st.lastBySite.find? (fun p => p.1 = siteId) with
  | some p =>
    if p.2.1 = cause ∧ p.2.2.1 = resolution ∧ now - p.2.2.2 < DEDUP_WINDOW_MS then
      (true, st)
    else
      (false, { st with lastBySite := mapSet st.lastBySite siteId (cause, resolution, now) })
  | none =>
    (false, { st with lastBySite := mapSet st.lastBySite siteId (cause, resolution, now) })

/-- `_detectAlarmsFromSite` (Agent B's detector minus the battery rule). -/
def detectAlarmsC : Option LaunchCtrl.AgentB.Site → List String
  | none => []
  | some s =>
    (if s.mains = some "off" then ["Mains.Off"] else []) ++
    (if s.siteAlive = some false then ["Site.Down"] else []) ++
    (if s.antenna1 = some "Unavailable" then ["Antenna.A1.Unavailable"] else []) ++
    (if s.antenna2 = some "Unavailable" then ["Antenna.A2.Unavailable"] else [])

/-- `site?.siteAlive === true ? 'up' : (=== false ? 'down' : 'n/a')`. -/
def aliveTxt (site? : Option LaunchCtrl.AgentB.Site) : String :=
  match site?.bind LaunchCtrl.AgentB.Site.siteAlive with
  | some true => "up"
  | some false => "down"
  | none => "n/a"

/-- `_buildSummaryLine`. -/
def buildSummaryLine (siteId cause resolution : String)
    (site? : Option LaunchCtrl.AgentB.Site) (alarms : List String) : String :=
  "Site " ++ siteId ++ ": cause=" ++ cause ++ " • resolution=" ++ resolution ++
    " • mains=" ++ ((site?.bind LaunchCtrl.AgentB.Site.mains).getD "n/a") ++
    " • cell=" ++ aliveTxt site? ++
    " • A1=" ++ ((site?.bind LaunchCtrl.AgentB.Site.antenna1).getD "n/a") ++
    " • A2=" ++ ((site?.bind LaunchCtrl.AgentB.Site.antenna2).getD "n/a") ++
    " • " ++ (if alarms.isEmpty then "alarms=none"
              else "alarms=[" ++ String.intercalate ", " alarms ++ "]")

/-- The outcome of `recordIncident`. -/
inductive RecResult where
  | skipped (reason : String)
  | accepted (c : Case)
deriving Repr, DecidableEq

/-- `if (this.status !== 'running') this.start()`. -/
def autoStart (st : CState) : CState :=
  if st.status ≠ "running" then { st with status := "running" } else st

/-- `recordIncident({siteId, cause, actions, resolution})`: auto-start, noise
filter, per-site dedup, then append the case (with
`ongoing = resolution !== 'restored' || alarms.length > 0` and
`dispatchSuggested = ongoing`). -/
def recordIncident (st : CState) (now : Nat) (nowIso : String)
    (site? : Option LaunchCtrl.AgentB.Site) (siteId cause : String)
    (actions : List LaunchCtrl.Supervisor.Step) (resolution : String) :
    CState × RecResult :=
  let st := autoStart st
  if isNoise siteId cause then (st, .skipped "noise_or_unknown")
  else
    let d := dedup st now siteId cause resolution
    if d.1 then (d.2, .skipped "dedup_suppressed")
    else
      let alarms := detectAlarmsC site?
      let ongoing : Bool :=
        if resolution ≠ "restored" ∨ ¬ alarms.isEmpty then true else false
      let c : Case :=
        ⟨nowIso, siteId, cause, actions, resolution, ongoing, ongoing,
         buildSummaryLine siteId cause resolution site? alarms⟩
      ({ d.2 with casebook := d.2.casebook ++ [c] }, .accepted c)

/-- The case `composeDispatchEmail` bases the email on: the most recent
(`casebook` is append-ordered) case for the site that is not noise. -/
def latestRelevantCase (casebook : List Case) (siteId : String) : Option Case :=
  casebook.reverse.find? (fun c =>
    if c.siteId = siteId ∧ ¬ isNoise c.siteId c.cause = true then true else false)

/-- `JSON.stringify(step.args)` for the argument objects Agent B builds. -/
def argsJson (s : LaunchCtrl.Supervisor.Step) : String :=
  "\x7b\"siteId\":\"" ++ s.siteId ++ "\"" ++
    (match s.antenna with
     | some a => ",\"antenna\":\"" ++ a ++ "\""
     | none => "") ++ "\x7d"

/-- One line of the "Actions taken" block (the object branch of the
formatter; the casebook actions recorded by the Supervisor are step
objects). -/
def actionLine (a : LaunchCtrl.Supervisor.Step) : String :=
  "- " ++ (if a.action.isEmpty then "action" else a.action) ++ " " ++
    argsJson a ++ " " ++ (if a.reason.isEmpty then "" else "| " ++ a.reason)

/-- `_dedup` never touches the casebook. -/
theorem dedup_casebook (st : CState) (now : Nat) (siteId cause resolution : String) :
    (dedup st now siteId cause resolution).2.casebook = st.casebook := by
  unfold dedup
  split
  · split
    · rfl
    · rfl
  · rfl

theorem autoStart_lastBySite (st : CState) : (autoStart st).lastBySite = st.lastBySite := by
  unfold autoStart
  split <;> rfl

theorem autoStart_casebook (st : CState) : (autoStart st).casebook = st.casebook := by
  unfold autoStart
  split <;> rfl

/-- `_dedup` does not suppress a record whose resolution differs from the
last one stored for the site. -/
theorem dedup_not_suppressed {st : CState} {now : Nat} {siteId cause res : String}
    (h : ∀ p ∈ st.lastBySite, p.1 = siteId → ¬ p.2.2.1 = res) :
    (dedup st now siteId cause res).1 = false := by
  unfold dedup
  cases hf : st.lastBySite.find? (fun p => p.1 = siteId) with
  | none => simp [hf]
  | some p =>
    have hmem := List.mem_of_find?_eq_some hf
    have hp1 : p.1 = siteId := by simpa using List.find?_some hf
    simp only [hf]
    rw [if_neg]
    rintro ⟨_, hr, _⟩
    exact h p hmem hp1 hr

/-- `recordIncident` accepts and appends a case when the input is not noise
and the site's previous record has a different resolution. -/
theorem recordIncident_accepts {cst : CState} {now : Nat} {iso : String}
    {site? : Option LaunchCtrl.AgentB.Site} {siteId cause : String}
    {acts : List LaunchCtrl.Supervisor.Step} {res : String}
    (hnoise : isNoise siteId cause = false)
    (hded : ∀ p ∈ cst.lastBySite, p.1 = siteId → ¬ p.2.2.1 = res) :
    ∃ c, (recordIncident cst now iso site? siteId cause acts res).2 =
        RecResult.accepted c ∧
      c.resolution = res ∧
      (recordIncident cst now iso site? siteId cause acts res).1.casebook =
        cst.casebook ++ [c] := by
  unfold recordIncident
  dsimp only
  rw [if_neg (by simp [hnoise])]
  have hd : (dedup (autoStart cst) now siteId cause res).1 = false :=
    dedup_not_suppressed (by rw [autoStart_lastBySite]; exact hded)
  rw [if_neg (by simp [hd])]
  refine ⟨_, rfl, rfl, ?_⟩
  show (dedup (autoStart cst) now siteId cause res).2.casebook ++ [_] =
    cst.casebook ++ [_]
  rw [dedup_casebook, autoStart_casebook]

/-- The result of `composeDispatchEmail`. -/
structure ComposeResult where
  ok : Bool
  error : Option String
  subject : String
  body : String
deriving Repr, DecidableEq

/-- `composeDispatchEmail(siteId)`: pick the most recent non-noise case for
the site; refuse with `no_unresolved_case` unless it has
`dispatchSuggested`; otherwise build the deterministic subject and body. -/
def composeDispatchEmail (casebook : List Case) (siteId : String)
    (site? : Option LaunchCtrl.AgentB.Site) : ComposeResult :=
  match latestRelevantCase casebook siteId with
  | none => ⟨false, some "no_unresolved_case", "", ""⟩
  | some latest =>
    if ¬ latest.dispatchSuggested then ⟨false, some "no_unresolved_case", "", ""⟩
    else
      let alarms := detectAlarmsC site?
      let mains := (site?.bind LaunchCtrl.AgentB.Site.mains).getD "n/a"
      let a1 := (site?.bind LaunchCtrl.AgentB.Site.antenna1).getD "n/a"
      let a2 := (site?.bind LaunchCtrl.AgentB.Site.antenna2).getD "n/a"
      let batt := match site?.bind LaunchCtrl.AgentB.Site.batteryPercent with
        | some n => toString n
        | none => "n/a"
      let actionsTxt := String.intercalate "\n" (latest.actions.map actionLine)
      let subject := "[DISPATCH] " ++ siteId ++ " – " ++
        (if latest.cause.isEmpty then "Degradation" else latest.cause) ++
        " – Action required"
      let body :=
        "Site: " ++ siteId ++ "\nWhen: " ++ latest.ts ++
        "\nCurrent status: mains=" ++ mains ++ ", cell=" ++ aliveTxt site? ++
        ", A1=" ++ a1 ++ ", A2=" ++ a2 ++ ", battery=" ++ batt ++ "%" ++
        "\nOpen alarms: " ++
        (if alarms.isEmpty then "none detected" else String.intercalate ", " alarms) ++
        "\n\nActions taken so far:\n" ++
        (if actionsTxt.isEmpty then "- none recorded" else actionsTxt) ++
        "\n\nRequested next step:\n- Field dispatch to investigate/restore service." ++
        "\n- Please check grid power, site access, RRUs, and backhaul as applicable." ++
        "\n\nSummary:\n" ++ latest.summary ++ "\n\nThank you,\nSupervisor"
      ⟨true, none, subject, body⟩

end LaunchCtrl.AgentC

/-- C9 counterexample: a casebook holding an accepted dispatch-suggested case
for `"S1"` followed by a later restored case (`dispatchSuggested = false`)
makes `composeDispatchEmail("S1")` return `no_unresolved_case`, although an
accepted case for the site with `dispatchSuggested = true` exists — the code
inspects only the most recent non-noise case, not the most recent
dispatch-suggested one. -/
theorem C9_dispatch_email_counterexample :
    (LaunchCtrl.AgentC.composeDispatchEmail
        [⟨"T0", "S1", "correlated_alarm_cluster", [], "stabilized", true, true, "s0"⟩,
         ⟨"T1", "S1", "correlated_alarm_cluster", [], "restored", false, false, "s1"⟩]
        "S1" none) =
      ⟨false, some "no_unresolved_case", "", ""⟩ ∧
    (⟨"T0", "S1", "correlated_alarm_cluster", [], "stabilized", true, true, "s0"⟩ :
        LaunchCtrl.AgentC.Case) ∈
      [⟨"T0", "S1", "correlated_alarm_cluster", [], "stabilized", true, true, "s0"⟩,
       ⟨"T1", "S1", "correlated_alarm_cluster", [], "restored", false, false, "s1"⟩] ∧
    (⟨"T0", "S1", "correlated_alarm_cluster", [], "stabilized", true, true, "s0"⟩ :
        LaunchCtrl.AgentC.Case).dispatchSuggested = true := by
  refine ⟨by decide, by decide, rfl⟩

/-- C9 (amended): `composeDispatchEmail(siteId)` bases the email on the most
recent non-noise case for the site regardless of its `dispatchSuggested`
flag: it returns `{ok:false, error:'no_unresolved_case'}` exactly when there
is no non-noise case for the site or the most recent one has
`dispatchSuggested = false`; when the most recent non-noise case has
`dispatchSuggested = true` it returns `ok:true` with subject
`"[DISPATCH] <siteId> – <cause> – Action required"`. -/
theorem C9_dispatch_email_latest_case (casebook : List LaunchCtrl.AgentC.Case)
    (siteId : String) (site? : Option LaunchCtrl.AgentB.Site) :
    (((LaunchCtrl.AgentC.composeDispatchEmail casebook siteId site?).ok = false ∧
      (LaunchCtrl.AgentC.composeDispatchEmail casebook siteId site?).error =
        some "no_unresolved_case") ↔
      (LaunchCtrl.AgentC.latestRelevantCase casebook siteId = none ∨
        ∃ c, LaunchCtrl.AgentC.latestRelevantCase casebook siteId = some c ∧
          c.dispatchSuggested = false)) ∧
    (∀ c, LaunchCtrl.AgentC.latestRelevantCase casebook siteId = some c →
      c.dispatchSuggested = true →
      (LaunchCtrl.AgentC.composeDispatchEmail casebook siteId site?).ok = true ∧
      (LaunchCtrl.AgentC.composeDispatchEmail casebook siteId site?).subject =
        "[DISPATCH] " ++ siteId ++ " – " ++
          (if c.cause.isEmpty then "Degradation" else c.cause) ++
          " – Action required") := by
  unfold LaunchCtrl.AgentC.composeDispatchEmail
  cases hlatest : LaunchCtrl.AgentC.latestRelevantCase casebook siteId with
  | none =>
    constructor
    · simp
    · intro c hc
      exact absurd hc (by simp)
  | some latest =>
    cases hd : latest.dispatchSuggested with
    | false =>
      constructor
      · simp only [hd]
        constructor
        · intro _
          exact Or.inr ⟨latest, rfl, hd⟩
        · intro _
          simp
      · intro c hc ht
        obtain rfl : latest = c := by injection hc
        rw [hd] at ht
        exact absurd ht (by simp)
    | true =>
      constructor
      · simp only [hd]
        constructor
        · intro h
          exact absurd h.1 (by simp)
        · rintro (h | ⟨c, hc, hcd⟩)
          · exact absurd h (by simp)
          · obtain rfl : latest = c := by injection hc
            rw [hd] at hcd
            exact absurd hcd (by simp)
      · intro c hc _
        obtain rfl : latest = c := by injection hc
        simp [hd]

/-- Witness for C9 (amended): a single stabilized, dispatch-suggested case
produces the dispatch subject for its site. -/
theorem C9_dispatch_email_latest_case_witness :
    (LaunchCtrl.AgentC.composeDispatchEmail
        [⟨"T0", "S1", "correlated_alarm_cluster", [], "stabilized", true, true, "s0"⟩]
        "S1" none).ok = true ∧
    (LaunchCtrl.AgentC.composeDispatchEmail
        [⟨"T0", "S1", "correlated_alarm_cluster", [], "stabilized", true, true, "s0"⟩]
        "S1" none).subject =
      "[DISPATCH] " ++ "S1" ++ " – " ++
        (if ("correlated_alarm_cluster" : String).isEmpty then "Degradation"
         else "correlated_alarm_cluster") ++ " – Action required" := by
  have h := (C9_dispatch_email_latest_case
    [⟨"T0", "S1", "correlated_alarm_cluster", [], "stabilized", true, true, "s0"⟩]
    "S1" none).2
    ⟨"T0", "S1", "correlated_alarm_cluster", [], "stabilized", true, true, "s0"⟩
    (by decide) rfl
  exact h

namespace LaunchCtrl.Supervisor

/-- A normalized bus event as the Supervisor receives it (bus producers set
`ts`, the cold-start sweep sets `timestamp`). -/
structure Event where
  type : String
  siteId : Option String
  alarm : Option String
  timestamp : Option String
  ts : Option String
deriving Repr, DecidableEq

/-- `eventId(evt)`: exact-duplicate identity
`type|siteId|alarm|timestamp-or-ts`, empty strings for missing fields. -/
def eventId (e : Event) : String :=
  e.type ++ "|" ++ e.siteId.getD "" ++ "|" ++ e.alarm.getD "" ++ "|" ++
    jsOr2 e.timestamp e.ts ""

/-- `(evt?.siteId && String(evt.siteId).trim()) || null`. -/
def normSiteId (e : Event) : Option String :=
  match e.siteId with
  | none => none
  | some s =>
    if s.isEmpty then none
    else
      let t := trimStr s
      if t.isEmpty then none else some t

def PROCESSED_TTL_MS : Nat := 60000

/-- `processed.has(id)`. -/
def processedHas (s : SupState) (id : String) : Bool :=
  s.processed.any (fun p => p.1 = id)

/-- `remember(id)`: insert with the current wall time; when the ledger
exceeds 5000 entries, evict the ones older than 60 s. -/
def rememberS (now : Nat) (id : String) (s : SupState) : SupState :=
  let pr := s.processed ++ [(id, now)]
  let pr :=
    if pr.length > 5000 then pr.filter (fun p => ¬ p.2 < now - PROCESSED_TTL_MS)
    else pr
  { s with processed := pr }

/-- `autoEffective()` = policy allows E2E OR the stored manual toggle. -/
def autoEffective (wow : String) (toggle : Bool) : Bool :=
  if lowerStr wow = "e2e automation" then true else toggle

/-- One agent interaction of `handleEvent`, in invocation order. -/
inductive Call where
  | correlateA (siteId ctype cts : String)
  | recordC (siteId cause resolution : String)
  | mitigateB (siteId : String)
deriving Repr, DecidableEq

/-- The agents as `handleEvent` sees them: Agent A's batch correlate response
and Agent B's mitigation result for a site. -/
structure Env where
  correlate : String → String → String → List LaunchCtrl.AgentA.Incident
  mitigate : String → LaunchCtrl.AgentB.MitResult

/-- `addApprovalRequest({siteId, actions, reason})`. -/
def addApprovalRequest (nowIso : String) (s : SupState) (siteId : String)
    (actions : List Step) (reason : String) : SupState :=
  let id := toString s.nextApprovalId
  { s with nextApprovalId := s.nextApprovalId + 1,
           approvals := s.approvals ++ [⟨id, siteId, actions, reason, nowIso⟩],
           lastNote := some ("Approval requested #" ++ id ++ " for " ++ siteId),
           logs := pushLog s.logs
             ("approval.requested → #" ++ id ++ " site=" ++ siteId ++
              " reason=" ++ reason ++ " steps=" ++ toString actions.length) }

/-- The orchestration part of `handleEvent`, entered after the duplicate
check and `remember` (status gate, siteId gate, actionable-type gate, Agent A
probe, Agent C "investigating", then the HITL or auto branch).  Returns the
new supervisor state and the agent calls made, in order. -/
def afterRemember (env : Env) (wow : String) (toggle : Bool) (nowIso : String)
    (s : SupState) (evt : Event) : SupState × List Call :=
  let s := logS s ("bus.event → type=" ++ evt.type)
  if s.status ≠ "running" then
    (logS s "supervisor.idle → ignoring bus event", [])
  else
    match normSiteId evt with
    | none => (logS s "event.skipped → missing siteId", [])
    | some siteId =>
      if ¬ (evt.type = "alarm.raised" ∨ evt.type = "service.changed") then
        (logS s ("event.skipped → non-actionable type: " ++ evt.type), [])
      else
        let ctype := jsOr2 evt.alarm (some evt.type) "unknown"
        let cts := jsOr2 evt.timestamp evt.ts nowIso
        let incidents := env.correlate siteId ctype cts
        let s := logS s ("Agent A: " ++ siteId ++ " → " ++
          toString incidents.length ++ " incident(s)")
        if incidents.isEmpty then (s, [.correlateA siteId ctype cts])
        else
          let s := logS s ("Agent C: investigating recorded for " ++ siteId)
          let calls := [Call.correlateA siteId ctype cts,
                        Call.recordC siteId "correlated_alarm_cluster" "investigating"]
          if ¬ autoEffective wow toggle then
            let out := env.mitigate siteId
            let calls := calls ++ [Call.mitigateB siteId]
            if out.error = some "approval_required" then
              (addApprovalRequest nowIso s siteId out.plan
                "Troubleshooting HITL plan requires approval", calls)
            else
              (logS s ("HITL: result for " ++ siteId), calls)
          else
            let s := { s with tasksRouted := s.tasksRouted + 1 }
            let s := logS s ("Agent B: mitigating " ++ siteId)
            let out := env.mitigate siteId
            let calls := calls ++ [Call.mitigateB siteId]
            if out.ok = true ∧ out.allClear = true then
              (logS s ("Agent C: restored recorded for " ++ siteId),
               calls ++ [Call.recordC siteId "correlated_alarm_cluster" "restored"])
            else
              (logS s ("Agent C: stabilized/dispatch-suggested recorded for " ++ siteId),
               calls ++ [Call.recordC siteId "correlated_alarm_cluster" "stabilized"])

/-- `handleEvent(evt)`: the exact-duplicate ledger gate, then `remember`,
then the orchestration. -/
def handleEvent (env : Env) (wow : String) (toggle : Bool) (now : Nat)
    (nowIso : String) (s : SupState) (evt : Event) : SupState × List Call :=
  let id := eventId evt
  if processedHas s id then (logS s ("event.duplicate → " ++ id), [])
  else afterRemember env wow toggle nowIso (rememberS now id s) evt

@[simp] theorem logS_status (s : SupState) (m : String) : (logS s m).status = s.status := rfl
@[simp] theorem logS_approvals (s : SupState) (m : String) : (logS s m).approvals = s.approvals := rfl
@[simp] theorem logS_tasksRouted (s : SupState) (m : String) : (logS s m).tasksRouted = s.tasksRouted := rfl
@[simp] theorem logS_processed (s : SupState) (m : String) : (logS s m).processed = s.processed := rfl
@[simp] theorem logS_nextApprovalId (s : SupState) (m : String) : (logS s m).nextApprovalId = s.nextApprovalId := rfl
@[simp] theorem logS_startedAt (s : SupState) (m : String) : (logS s m).startedAt = s.startedAt := rfl
@[simp] theorem logS_runtimeSec (s : SupState) (m : String) : (logS s m).runtimeSec = s.runtimeSec := rfl
@[simp] theorem rememberS_status (now : Nat) (id : String) (s : SupState) :
    (rememberS now id s).status = s.status := rfl
@[simp] theorem rememberS_approvals (now : Nat) (id : String) (s : SupState) :
    (rememberS now id s).approvals = s.approvals := rfl
@[simp] theorem rememberS_tasksRouted (now : Nat) (id : String) (s : SupState) :
    (rememberS now id s).tasksRouted = s.tasksRouted := rfl
@[simp] theorem rememberS_nextApprovalId (now : Nat) (id : String) (s : SupState) :
    (rememberS now id s).nextApprovalId = s.nextApprovalId := rfl
@[simp] theorem addApproval_processed (nowIso : String) (s : SupState)
    (siteId : String) (actions : List Step) (reason : String) :
    (addApprovalRequest nowIso s siteId actions reason).processed = s.processed := rfl

/-- The orchestration never touches the duplicate ledger. -/
theorem afterRemember_processed (env : Env) (wow : String) (toggle : Bool)
    (nowIso : String) (s : SupState) (evt : Event) :
    (afterRemember env wow toggle nowIso s evt).1.processed = s.processed := by
  unfold afterRemember
  dsimp only
  split
  · simp
  · split
    · simp
    · split
      · simp
      · split
        · simp
        · split
          · split
            · simp [addApprovalRequest]
            · simp
          · split
            · simp
            · simp

/-- After any `handleEvent` delivery the event's id is in the ledger. -/
theorem handleEvent_remembers (env : Env) (wow : String) (toggle : Bool)
    (now : Nat) (nowIso : String) (s : SupState) (evt : Event) :
    processedHas (handleEvent env wow toggle now nowIso s evt).1 (eventId evt) = true := by
  unfold handleEvent
  dsimp only
  split
  · next h => simpa [processedHas, logS] using h
  · rw [show processedHas (afterRemember env wow toggle nowIso
        (rememberS now (eventId evt) s) evt).1 (eventId evt) =
        processedHas (rememberS now (eventId evt) s) (eventId evt) from by
      unfold processedHas
      rw [afterRemember_processed]]
    unfold processedHas rememberS
    dsimp only
    split
    · apply List.any_eq_true.mpr
      refine ⟨(eventId evt, now), ?_, by simp⟩
      apply List.mem_filter.mpr
      refine ⟨List.mem_append_right _ (List.mem_singleton.mpr rfl), ?_⟩
      simp [Nat.not_lt.mpr (Nat.sub_le now PROCESSED_TTL_MS)]
    · apply List.any_eq_true.mpr
      exact ⟨(eventId evt, now), List.mem_append_right _ (List.mem_singleton.mpr rfl), by simp⟩

/-- The duplicate branch of `handleEvent`, as an equation. -/
theorem handleEvent_dup {env : Env} {wow : String} {toggle : Bool} {now : Nat}
    {nowIso : String} {s : SupState} {evt : Event}
    (h : processedHas s (eventId evt) = true) :
    handleEvent env wow toggle now nowIso s evt =
      (logS s ("event.duplicate → " ++ eventId evt), []) := by
  unfold handleEvent
  dsimp only
  rw [if_pos h]

end LaunchCtrl.Supervisor

/-- C2: delivering to `handleEvent` a second event with the identical
`(type, siteId, alarm, ts)` tuple within 60 seconds of the first appends an
`event.duplicate` log line and returns before any orchestration step: no
agent is invoked and every observable supervisor field (approvals, pending
approval counter, tasksRouted, ledger, status, clock, runtime) is exactly as
after the single delivery. -/
theorem C2_duplicate_delivery (env : LaunchCtrl.Supervisor.Env) (wow : String)
    (toggle : Bool) (t1 t2 : Nat) (iso1 iso2 : String)
    (s : LaunchCtrl.Supervisor.SupState) (e e2 : LaunchCtrl.Supervisor.Event)
    (hid : LaunchCtrl.Supervisor.eventId e2 = LaunchCtrl.Supervisor.eventId e)
    (hle : t1 ≤ t2) (hwin : t2 - t1 ≤ 60000) :
    (LaunchCtrl.Supervisor.handleEvent env wow toggle t2 iso2
        (LaunchCtrl.Supervisor.handleEvent env wow toggle t1 iso1 s e).1 e2).2 = [] ∧
    (LaunchCtrl.Supervisor.handleEvent env wow toggle t2 iso2
        (LaunchCtrl.Supervisor.handleEvent env wow toggle t1 iso1 s e).1 e2).1.approvals =
      (LaunchCtrl.Supervisor.handleEvent env wow toggle t1 iso1 s e).1.approvals ∧
    (LaunchCtrl.Supervisor.handleEvent env wow toggle t2 iso2
        (LaunchCtrl.Supervisor.handleEvent env wow toggle t1 iso1 s e).1 e2).1.nextApprovalId =
      (LaunchCtrl.Supervisor.handleEvent env wow toggle t1 iso1 s e).1.nextApprovalId ∧
    (LaunchCtrl.Supervisor.handleEvent env wow toggle t2 iso2
        (LaunchCtrl.Supervisor.handleEvent env wow toggle t1 iso1 s e).1 e2).1.tasksRouted =
      (LaunchCtrl.Supervisor.handleEvent env wow toggle t1 iso1 s e).1.tasksRouted ∧
    (LaunchCtrl.Supervisor.handleEvent env wow toggle t2 iso2
        (LaunchCtrl.Supervisor.handleEvent env wow toggle t1 iso1 s e).1 e2).1.processed =
      (LaunchCtrl.Supervisor.handleEvent env wow toggle t1 iso1 s e).1.processed ∧
    (LaunchCtrl.Supervisor.handleEvent env wow toggle t2 iso2
        (LaunchCtrl.Supervisor.handleEvent env wow toggle t1 iso1 s e).1 e2).1.status =
      (LaunchCtrl.Supervisor.handleEvent env wow toggle t1 iso1 s e).1.status ∧
    (LaunchCtrl.Supervisor.handleEvent env wow toggle t2 iso2
        (LaunchCtrl.Supervisor.handleEvent env wow toggle t1 iso1 s e).1 e2).1.startedAt =
      (LaunchCtrl.Supervisor.handleEvent env wow toggle t1 iso1 s e).1.startedAt ∧
    (LaunchCtrl.Supervisor.handleEvent env wow toggle t2 iso2
        (LaunchCtrl.Supervisor.handleEvent env wow toggle t1 iso1 s e).1 e2).1.runtimeSec =
      (LaunchCtrl.Supervisor.handleEvent env wow toggle t1 iso1 s e).1.runtimeSec ∧
    (LaunchCtrl.Supervisor.handleEvent env wow toggle t2 iso2
        (LaunchCtrl.Supervisor.handleEvent env wow toggle t1 iso1 s e).1 e2).1.logs =
      LaunchCtrl.Supervisor.pushLog
        (LaunchCtrl.Supervisor.handleEvent env wow toggle t1 iso1 s e).1.logs
        ("event.duplicate → " ++ LaunchCtrl.Supervisor.eventId e2) := by
  have hhas : LaunchCtrl.Supervisor.processedHas
      (LaunchCtrl.Supervisor.handleEvent env wow toggle t1 iso1 s e).1
      (LaunchCtrl.Supervisor.eventId e2) = true := by
    rw [hid]
    exact LaunchCtrl.Supervisor.handleEvent_remembers env wow toggle t1 iso1 s e
  rw [LaunchCtrl.Supervisor.handleEvent_dup hhas]
  exact ⟨rfl, rfl, rfl, rfl, rfl, rfl, rfl, rfl, rfl⟩

/-- Witness for C2 at a concrete event delivered twice 5 seconds apart. -/
theorem C2_duplicate_delivery_witness :
    (LaunchCtrl.Supervisor.handleEvent
        ⟨fun _ _ _ => [], fun _ => LaunchCtrl.AgentB.errResult "none"⟩
        "E2E automation" false 5000 "t+5"
        (LaunchCtrl.Supervisor.handleEvent
          ⟨fun _ _ _ => [], fun _ => LaunchCtrl.AgentB.errResult "none"⟩
          "E2E automation" false 0 "t0"
          { LaunchCtrl.Supervisor.supInit with status := "running" }
          ⟨"alarm.raised", some "S1", some "MainsFailure", none,
           some "2025-01-01T00:00:00Z"⟩).1
        ⟨"alarm.raised", some "S1", some "MainsFailure", none,
         some "2025-01-01T00:00:00Z"⟩).2 = [] ∧
    (LaunchCtrl.Supervisor.handleEvent
        ⟨fun _ _ _ => [], fun _ => LaunchCtrl.AgentB.errResult "none"⟩
        "E2E automation" false 5000 "t+5"
        (LaunchCtrl.Supervisor.handleEvent
          ⟨fun _ _ _ => [], fun _ => LaunchCtrl.AgentB.errResult "none"⟩
          "E2E automation" false 0 "t0"
          { LaunchCtrl.Supervisor.supInit with status := "running" }
          ⟨"alarm.raised", some "S1", some "MainsFailure", none,
           some "2025-01-01T00:00:00Z"⟩).1
        ⟨"alarm.raised", some "S1", some "MainsFailure", none,
         some "2025-01-01T00:00:00Z"⟩).1.tasksRouted =
      (LaunchCtrl.Supervisor.handleEvent
        ⟨fun _ _ _ => [], fun _ => LaunchCtrl.AgentB.errResult "none"⟩
        "E2E automation" false 0 "t0"
        { LaunchCtrl.Supervisor.supInit with status := "running" }
        ⟨"alarm.raised", some "S1", some "MainsFailure", none,
         some "2025-01-01T00:00:00Z"⟩).1.tasksRouted := by
  have h := C2_duplicate_delivery
    ⟨fun _ _ _ => [], fun _ => LaunchCtrl.AgentB.errResult "none"⟩
    "E2E automation" false 0 5000 "t0" "t+5"
    { LaunchCtrl.Supervisor.supInit with status := "running" }
    ⟨"alarm.raised", some "S1", some "MainsFailure", none,
     some "2025-01-01T00:00:00Z"⟩
    ⟨"alarm.raised", some "S1", some "MainsFailure", none,
     some "2025-01-01T00:00:00Z"⟩
    rfl (by decide) (by decide)
  exact ⟨h.1, h.2.2.2.1⟩

namespace LaunchCtrl.AgentA

/-- A single event that passes the filter correlates into exactly one
incident holding exactly that event. -/
theorem correlate_singleton_of_keep {pol : String} {tsMs : String → Int}
    {e : CorrEvent} (h : keepEvent (policyMode pol) e = true) :
    correlate pol tsMs [e] =
      [⟨e.siteId.getD "", e.timestamp, e.timestamp, 1, [typeOrAlarm e], [e]⟩] := by
  unfold correlate
  dsimp only
  rw [show List.filter (keepEvent (policyMode pol)) [e] = [e] from by simp [h]]
  rfl

/-- A kept event has a usable site id. -/
theorem keep_site_ok {mode : String} {e : CorrEvent}
    (h : keepEvent mode e = true) :
    (evSite e).isEmpty = false ∧ evSite e ≠ "unknown" := by
  unfold keepEvent at h
  dsimp only at h
  by_cases h1 : ((evSite e).isEmpty || decide (evSite e = "unknown")) = true
  · rw [if_pos h1] at h
    exact absurd h (by simp)
  · have h1n := h1
    simp only [Bool.or_eq_true, decide_eq_true_eq, not_or] at h1n
    exact ⟨by simpa using h1n.1, h1n.2⟩

end LaunchCtrl.AgentA

/-- C10: with the manual auto toggle enabled while `policy.waysOfWorking` is
`"Human intervention at critical steps"`, the Supervisor takes the auto path
(`autoEffective` is the disjunction): it increments `tasksRouted` and calls
Agent B; but `mitigateSite` consults only the policy, so it returns
`approval_required` without issuing any device request; the Supervisor's auto
branch enqueues no approval, and it asks Agent C to record a case with
resolution `stabilized`, which Agent C accepts and appends (the previous
record for the site being the `investigating` one). -/
theorem C10_toggle_auto_path_hitl_policy
    (polA : String) (tsMs : String → Int)
    (oracle : Nat → Option LaunchCtrl.AgentB.Site) (k : Nat)
    (st : LaunchCtrl.AgentB.Site) (hsite : oracle k = some st)
    (s : LaunchCtrl.Supervisor.SupState) (hrun : s.status = "running")
    (evt : LaunchCtrl.Supervisor.Event) (hty : evt.type = "alarm.raised")
    (sid : String) (hsid : LaunchCtrl.Supervisor.normSiteId evt = some sid)
    (now : Nat) (iso : String)
    (hnew : LaunchCtrl.Supervisor.processedHas s
      (LaunchCtrl.Supervisor.eventId evt) = false)
    (hkeep : LaunchCtrl.AgentA.keepEvent (LaunchCtrl.AgentA.policyMode polA)
      ⟨some sid, some (LaunchCtrl.jsOr2 evt.alarm (some evt.type) "unknown"), none,
       LaunchCtrl.jsOr2 evt.timestamp evt.ts iso⟩ = true)
    (env : LaunchCtrl.Supervisor.Env)
    (henvA : env.correlate = fun s0 t ts0 =>
      LaunchCtrl.AgentA.correlate polA tsMs [⟨some s0, some t, none, ts0⟩])
    (henvB : env.mitigate = fun s0 =>
      (LaunchCtrl.AgentB.mitigateSite "running"
        "Human intervention at critical steps" oracle k s0).1)
    (cst : LaunchCtrl.AgentC.CState) (nowC : Nat) (isoC : String)
    (siteC : Option LaunchCtrl.AgentB.Site)
    (acts : List LaunchCtrl.Supervisor.Step)
    (hlast : ∀ p ∈ cst.lastBySite, p.1 = sid → p.2.2.1 = "investigating") :
    (LaunchCtrl.Supervisor.handleEvent env "Human intervention at critical steps"
        true now iso s evt).1.approvals = s.approvals ∧
    (LaunchCtrl.Supervisor.handleEvent env "Human intervention at critical steps"
        true now iso s evt).1.nextApprovalId = s.nextApprovalId ∧
    (LaunchCtrl.Supervisor.handleEvent env "Human intervention at critical steps"
        true now iso s evt).1.tasksRouted = s.tasksRouted + 1 ∧
    (LaunchCtrl.AgentB.mitigateSite "running" "Human intervention at critical steps"
        oracle k sid).2 = [] ∧
    (LaunchCtrl.Supervisor.handleEvent env "Human intervention at critical steps"
        true now iso s evt).2 =
      [LaunchCtrl.Supervisor.Call.correlateA sid
         (LaunchCtrl.jsOr2 evt.alarm (some evt.type) "unknown")
         (LaunchCtrl.jsOr2 evt.timestamp evt.ts iso),
       LaunchCtrl.Supervisor.Call.recordC sid "correlated_alarm_cluster" "investigating",
       LaunchCtrl.Supervisor.Call.mitigateB sid,
       LaunchCtrl.Supervisor.Call.recordC sid "correlated_alarm_cluster" "stabilized"] ∧
    (∃ c, (LaunchCtrl.AgentC.recordIncident cst nowC isoC siteC sid
        "correlated_alarm_cluster" acts "stabilized").2 =
          LaunchCtrl.AgentC.RecResult.accepted c ∧
      c.resolution = "stabilized" ∧
      (LaunchCtrl.AgentC.recordIncident cst nowC isoC siteC sid
        "correlated_alarm_cluster" acts "stabilized").1.casebook =
        cst.casebook ++ [c]) := by
  have hauto : LaunchCtrl.Supervisor.autoEffective
      "Human intervention at critical steps" true = true := by
    unfold LaunchCtrl.Supervisor.autoEffective
    split <;> rfl
  have hmit := @LaunchCtrl.AgentB.mitigateSite_hitl
    "Human intervention at critical steps" oracle k sid st hsite (by decide)
  have hsiteok := LaunchCtrl.AgentA.keep_site_ok hkeep
  have hsid1 : sid.isEmpty = false := by
    simpa [LaunchCtrl.AgentA.evSite] using hsiteok.1
  have hsid2 : sid ≠ "unknown" := by
    simpa [LaunchCtrl.AgentA.evSite] using hsiteok.2
  have heq : LaunchCtrl.Supervisor.handleEvent env
      "Human intervention at critical steps" true now iso s evt =
      (LaunchCtrl.Supervisor.logS
        (LaunchCtrl.Supervisor.logS
          { LaunchCtrl.Supervisor.logS
              (LaunchCtrl.Supervisor.logS
                (LaunchCtrl.Supervisor.logS
                  (LaunchCtrl.Supervisor.rememberS now
                    (LaunchCtrl.Supervisor.eventId evt) s)
                  ("bus.event → type=" ++ evt.type))
                ("Agent A: " ++ sid ++ " → " ++ toString (1 : Nat) ++ " incident(s)"))
              ("Agent C: investigating recorded for " ++ sid) with
            tasksRouted :=
              (LaunchCtrl.Supervisor.rememberS now
                (LaunchCtrl.Supervisor.eventId evt) s).tasksRouted + 1 }
          ("Agent B: mitigating " ++ sid))
        ("Agent C: stabilized/dispatch-suggested recorded for " ++ sid),
       [LaunchCtrl.Supervisor.Call.correlateA sid
          (LaunchCtrl.jsOr2 evt.alarm (some evt.type) "unknown")
          (LaunchCtrl.jsOr2 evt.timestamp evt.ts iso),
        LaunchCtrl.Supervisor.Call.recordC sid "correlated_alarm_cluster" "investigating",
        LaunchCtrl.Supervisor.Call.mitigateB sid,
        LaunchCtrl.Supervisor.Call.recordC sid "correlated_alarm_cluster" "stabilized"]) := by
    unfold LaunchCtrl.Supervisor.handleEvent
    dsimp only
    rw [if_neg (by simp [hnew])]
    unfold LaunchCtrl.Supervisor.afterRemember
    dsimp only
    rw [if_neg (by simp [hrun])]
    rw [hsid]
    dsimp only
    rw [if_neg (by simp [hty])]
    rw [henvA]
    dsimp only
    rw [LaunchCtrl.AgentA.correlate_singleton_of_keep hkeep]
    rw [if_neg (by simp)]
    rw [if_neg (by simp [hauto])]
    rw [henvB]
    dsimp only
    rw [hmit]
    dsimp only
    rw [if_neg (by simp)]
    rfl
  refine ⟨?_, ?_, ?_, ?_, ?_, ?_⟩
  · rw [heq]
    simp
  · rw [heq]
    simp
  · rw [heq]
    simp
  · rw [hmit]
  · rw [heq]
  · -- Agent C accepts the stabilized record
    apply LaunchCtrl.AgentC.recordIncident_accepts
    · unfold LaunchCtrl.AgentC.isNoise
      rw [if_neg]
      rintro (h | h | h)
      · rw [h] at hsid1
        exact absurd hsid1 (by decide)
      · exact hsid2 h
      · revert h
        decide
    · intro p hp hp1
      rw [hlast p hp hp1]
      decide

/-- Witness for C10 at a concrete degraded site and alarm event: the
supervisor routes one task and Agent B issues no device request. -/
theorem C10_toggle_auto_path_hitl_policy_witness :
    (LaunchCtrl.Supervisor.handleEvent
        ⟨fun s0 t ts0 => LaunchCtrl.AgentA.correlate "Critical First" (fun _ => 0)
           [⟨some s0, some t, none, ts0⟩],
         fun s0 => (LaunchCtrl.AgentB.mitigateSite "running"
           "Human intervention at critical steps"
           (fun _ => some ⟨some "off", some false, some 50, some "Unavailable", some "Available"⟩)
           0 s0).1⟩
        "Human intervention at critical steps" true 0 "tIso"
        { LaunchCtrl.Supervisor.supInit with status := "running" }
        ⟨"alarm.raised", some "S1", some "MainsFailure", none, some "T0"⟩).1.tasksRouted =
      { LaunchCtrl.Supervisor.supInit with status := "running" }.tasksRouted + 1 ∧
    (LaunchCtrl.AgentB.mitigateSite "running" "Human intervention at critical steps"
        (fun _ => some ⟨some "off", some false, some 50, some "Unavailable", some "Available"⟩)
        0 "S1").2 = [] ∧
    (LaunchCtrl.Supervisor.handleEvent
        ⟨fun s0 t ts0 => LaunchCtrl.AgentA.correlate "Critical First" (fun _ => 0)
           [⟨some s0, some t, none, ts0⟩],
         fun s0 => (LaunchCtrl.AgentB.mitigateSite "running"
           "Human intervention at critical steps"
           (fun _ => some ⟨some "off", some false, some 50, some "Unavailable", some "Available"⟩)
           0 s0).1⟩
        "Human intervention at critical steps" true 0 "tIso"
        { LaunchCtrl.Supervisor.supInit with status := "running" }
        ⟨"alarm.raised", some "S1", some "MainsFailure", none, some "T0"⟩).1.approvals =
      { LaunchCtrl.Supervisor.supInit with status := "running" }.approvals := by
  have h := C10_toggle_auto_path_hitl_policy "Critical First" (fun _ => 0)
    (fun _ => some ⟨some "off", some false, some 50, some "Unavailable", some "Available"⟩)
    0 ⟨some "off", some false, some 50, some "Unavailable", some "Available"⟩ rfl
    { LaunchCtrl.Supervisor.supInit with status := "running" } rfl
    ⟨"alarm.raised", some "S1", some "MainsFailure", none, some "T0"⟩ rfl
    "S1" (by decide) 0 "tIso" (by decide) (by decide)
    ⟨fun s0 t ts0 => LaunchCtrl.AgentA.correlate "Critical First" (fun _ => 0)
       [⟨some s0, some t, none, ts0⟩],
     fun s0 => (LaunchCtrl.AgentB.mitigateSite "running"
       "Human intervention at critical steps"
       (fun _ => some ⟨some "off", some false, some 50, some "Unavailable", some "Available"⟩)
       0 s0).1⟩
    rfl rfl
    ⟨"running", [], [("S1", "correlated_alarm_cluster", "investigating", 0)]⟩
    0 "tC" none []
    (by
      intro p hp hp1
      simp only [List.mem_singleton] at hp
      subst hp
      rfl)
  exact ⟨h.2.2.1, h.2.2.2.1, h.1⟩

namespace LaunchCtrl.Bus

/-- The module-load subscriptions on the `incidentBus` EventEmitter, as
`(channel, listener)` pairs: the Supervisor's `onIncident` wiring
(store.js line 13 — channel `bus.event`), the Supervisor's one-time alarm
visibility tap (typed channels, logs only), the bus's own buffer/SSE handler
and the streaming Agent A handler (both registered via `incidentBus` on the
generic channel `event`). -/
def wiring : List (String × String) :=
  [("bus.event", "supervisor.handleEvent"),
   ("alarm.raised", "supervisor.alarmTap"),
   ("alarm.cleared", "supervisor.alarmTap"),
   ("service.changed", "supervisor.alarmTap"),
   ("event", "incidentBus.bufferAndSse"),
   ("event", "agentA.onIncident")]

/-- EventEmitter delivery: every listener registered on exactly the emitted
channel, in registration order. -/
def deliverTo (subs : List (String × String)) (ch : String) : List String :=
  (subs.filter (fun p => p.1 = ch)).map (fun p => p.2)

/-- `DeltaEmitter.#emitBoth(type, payload)` emits on the typed channel and on
the unified `event` channel. -/
def deltaEmitChannels (t : String) : List String := [t, "event"]

/-- `bridge.emitBusEvent` emits only on the `event` channel. -/
def bridgeEmitChannels : List String := ["event"]

/-- The three event types the delta emitter produces. -/
def deltaEventTypes : List String := ["alarm.raised", "alarm.cleared", "service.changed"]

end LaunchCtrl.Bus

/-- C1 (bug evidence): the Supervisor's `handleEvent` listener is registered
on channel `bus.event` only, but every normalized event published by the
Delta Emitter or the Tower Bridge goes out on the typed channels and the
generic `event` channel — none of which delivers to the Supervisor.  So no
published `alarm.raised`/`alarm.cleared`/`service.changed` event ever invokes
`handleEvent`, contradicting the claimed Bus → Supervisor routing (and the
source's own comment and the `incidentBus` convention that normalized events
travel on `event`). -/
theorem C1_supervisor_channel_mismatch :
    "supervisor.handleEvent" ∈
      LaunchCtrl.Bus.deliverTo LaunchCtrl.Bus.wiring "bus.event" ∧
    "supervisor.handleEvent" ∉
      (LaunchCtrl.Bus.deltaEmitChannels "alarm.raised").flatMap
        (LaunchCtrl.Bus.deliverTo LaunchCtrl.Bus.wiring) ∧
    "supervisor.handleEvent" ∉
      (LaunchCtrl.Bus.deltaEmitChannels "alarm.cleared").flatMap
        (LaunchCtrl.Bus.deliverTo LaunchCtrl.Bus.wiring) ∧
    "supervisor.handleEvent" ∉
      (LaunchCtrl.Bus.deltaEmitChannels "service.changed").flatMap
        (LaunchCtrl.Bus.deliverTo LaunchCtrl.Bus.wiring) ∧
    "supervisor.handleEvent" ∉
      LaunchCtrl.Bus.bridgeEmitChannels.flatMap
        (LaunchCtrl.Bus.deliverTo LaunchCtrl.Bus.wiring) ∧
    LaunchCtrl.Bus.deliverTo LaunchCtrl.Bus.wiring "event" =
      ["incidentBus.bufferAndSse", "agentA.onIncident"] := by
  refine ⟨by decide, by decide, by decide, by decide, by decide, by decide⟩

